import Mathlib

/- Shallow embedding of the ai-interviewer-backend realtime interview
   orchestrator.  Each namespace models one source component:
   RT    - the RealtimeSession class of src/realtime.ts
   RT2   - the time-managed RealtimeSession variant (hard limit timer)
   ORS   - the OpenAIRealtimeSession speech-to-speech adapter
   Relay - the WebSocket connection handler of src/index.ts
   External collaborators (Whisper transcription, GPT text generation,
   TTS synthesis, Math.random) are modelled as oracle parameters carried
   by events; each event handler runs atomically, matching the
   per-connection serialized callback model of the runtime. -/

namespace Spec2Proof

/-- Speaker role of a transcript entry (the `sender` / `role` columns). -/
inductive Speaker
  | user
  | assistant
  deriving DecidableEq

/-- Interview phase (the `SessionState` union type of src/realtime.ts). -/
inductive Phase
  | INTRO
  | SMALL_TALK
  | INTERVIEW
  | Q_AND_A
  | CLOSING
  deriving DecidableEq

/-- Position of a phase in the canonical forward order. -/
def phaseIdx : Phase → Nat
  | .INTRO => 0
  | .SMALL_TALK => 1
  | .INTERVIEW => 2
  | .Q_AND_A => 3
  | .CLOSING => 4

/-- Messages the orchestrator sends to the client over its WebSocket. -/
inductive ClientMsg
  | aiSilence
  | aiText (text : String)
  | aiAudioChunk
  | callEnded (reason : String)
  deriving DecidableEq

/-- Outcome of one Whisper transcription call: the first segment's
no-speech probability plus the decoded text, or a thrown error. -/
inductive WhisperResult
  | ok (noSpeechProb : ℚ) (text : String)
  | err
  deriving DecidableEq

/-- Outcome of one plain-text askGPT chat call: the message content
(empty string models a null content), or a thrown error. -/
inductive GptText
  | ok (content : String)
  | err
  deriving DecidableEq

/-- Outcome of one JSON-mode evaluation call: the parsed `decision` and
`content` fields (empty string models a missing field), or a throw
(covering both the API error and a JSON.parse failure). -/
inductive GptEval
  | ok (decision : String) (content : String)
  | fail
  deriving DecidableEq

/-- Whitespace trimming on both ends (the semantics of JS
`text.trim()`), written over the character list so that it evaluates
by kernel reduction. -/
def jsTrim (s : String) : String :=
  ⟨((s.data.dropWhile fun c => c.isWhitespace).reverse.dropWhile fun c => c.isWhitespace).reverse⟩

/-- Splits a character list into its maximal whitespace-free runs. -/
def wordsAux : List Char → List Char → List String
  | [], acc => if acc.isEmpty then [] else [⟨acc.reverse⟩]
  | c :: cs, acc =>
    if c.isWhitespace then
      if acc.isEmpty then wordsAux cs [] else (⟨acc.reverse⟩ : String) :: wordsAux cs []
    else wordsAux cs (c :: acc)

/-- The whitespace-free runs of a string. -/
def jsWords (s : String) : List String :=
  wordsAux s.data []

namespace RT

def defaultSilenceMs : Nat := 15000

def moveOnMsg : String := "Let\x27s move on."

def continueMsg : String := "Let\x27s continue."

def fallbackThanks : String := "Thanks."

def holdAck : String := "No problem, take your time."

def qaCoversMsg : String := "That covers the main questions I had."

def qaInviteMsg : String := "Before we wrap up, do you have any questions for me about the role or company?"

def closingMsg : String := "Great! It was a pleasure meeting you. We will be in touch shortly. Have a great day!"

def silenceGoodbye : String := "Since I haven\x27t heard back, I\x27m going to end the interview now. You can try again later. Goodbye."

def reasonComplete : String := "Interview Complete"

def reasonSilence : String := "Silence Timeout"

def greeting (role company : String) : String :=
  "Hi there! Thanks for joining. I\x27m the Hiring Manager for the " ++ role ++ " role at " ++ company ++ ". How are you doing today?"

def nudgesGreetingPhase : List String :=
  [ "Hello? Are you still there? I\x27ll have to end the call shortly if there\x27s no response.",
    "I can\x27t seem to hear you. If you\x27re there, please say something so I keep the line open.",
    "Just checking in—can you hear me?" ]

def nudgesInterviewPhase : List String :=
  [ "Do you need a moment to think? Just let me know, otherwise I\x27ll need to close the session in about 20 seconds.",
    "I haven\x27t heard from you. If you\x27re thinking, just say \x27I need a minute\x27, otherwise I\x27ll end the call to save time.",
    "Just checking in—are you still with me?" ]

/-- In-memory state of one RealtimeSession, together with the
client-observable outputs (messages sent, transcript rows written,
scheduled timers, socket status). -/
structure State where
  phase : Phase
  currentQuestionIndex : Nat
  questions : List String
  audioBuffer : List String
  role : String
  company : String
  jobDescription : String
  isInsideFollowUp : Bool
  isTerminating : Bool
  silenceTimer : Option Nat
  hasWarnedSilence : Bool
  wsOpen : Bool
  clientSent : List ClientMsg
  transcript : List (Speaker × String)
  pendingTermination : Option String
  closeScheduled : Bool
  closeCount : Nat
  deriving DecidableEq

def send (s : State) (m : ClientMsg) : State :=
  { s with clientSent := s.clientSent ++ [m] }

def saveTranscript (s : State) (sender : Speaker) (text : String) : State :=
  { s with transcript := s.transcript ++ [(sender, text)] }

def stopSilenceTimer (s : State) : State :=
  { s with silenceTimer := none }

def startSilenceTimer (s : State) (ms : Nat) : State :=
  { s with silenceTimer := some ms }

/-- The speak helper: bail out when terminating, otherwise clear the
silence timer, persist the assistant utterance, send the caption text
and the synthesized audio (TTS abstracted as producing one chunk), then
re-arm the default silence timer. -/
def speak (s : State) (text : String) : State :=
  if s.isTerminating then s
  else
    let s := stopSilenceTimer s
    let s := saveTranscript s .assistant text
    let s := send s (.aiText text)
    let s := send s .aiAudioChunk
    startSilenceTimer s defaultSilenceMs

/-- The askGPT helper: a thrown error yields the catch fallback, a null
or empty content yields the default bridging phrase. -/
def askGPT (o : GptText) : String :=
  match o with
  | .ok c => if c = "" then moveOnMsg else c
  | .err => continueMsg

/-- JS truthiness of the `prevUserText` argument (null or empty string
are falsy). -/
def optTruthy (o : Option String) : Bool :=
  match o with
  | none => false
  | some t => t ≠ ""

def moveToNextQuestion (s : State) (prevUserText : Option String) (bridge : String) (gen : GptText) : State :=
  let s := { s with currentQuestionIndex := s.currentQuestionIndex + 1 }
  if s.currentQuestionIndex < s.questions.length then
    let nextQ := s.questions.getD s.currentQuestionIndex ""
    let finalBridge := if bridge = "" ∧ optTruthy prevUserText then askGPT gen else bridge
    let s := if finalBridge = "" then s else speak s finalBridge
    speak s nextQ
  else
    let s := { s with phase := .Q_AND_A }
    let s := speak s qaCoversMsg
    speak s qaInviteMsg

def askCurrentQuestion (s : State) : State :=
  if s.currentQuestionIndex < s.questions.length then
    speak s (s.questions.getD s.currentQuestionIndex "")
  else s

def handleSmallTalkResponse (s : State) (gen : GptText) : State :=
  let s := speak s (askGPT gen)
  let s := { s with phase := .INTERVIEW }
  askCurrentQuestion s

def handleInterviewResponse (s : State) (userText : String) (eval : GptEval) (gen : GptText) : State :=
  if s.isInsideFollowUp then
    moveToNextQuestion { s with isInsideFollowUp := false } (some userText) "" gen
  else
    match eval with
    | .fail => moveToNextQuestion s (some fallbackThanks) "" gen
    | .ok decision content =>
      if decision = "HOLD" then
        startSilenceTimer (speak s holdAck) 60000
      else if decision = "FOLLOW_UP" then
        speak { s with isInsideFollowUp := true } content
      else
        moveToNextQuestion s none content gen

def handleQandAResponse (s : State) (done : Bool) (gen : GptText) : State :=
  if done then
    let s := { s with phase := .CLOSING }
    let s := speak s closingMsg
    { s with pendingTermination := some reasonComplete }
  else
    speak s (askGPT gen)

/-- The no-speech probability threshold of transcribeAudio. -/
def noSpeechThreshold : ℚ := mkRat 6 10

/-- The transcribeAudio helper as a function of the Whisper oracle:
empty buffer or a thrown error count as silence, as does a first-segment
no-speech probability above the 0.6 threshold. -/
def transcribeAudio (s : State) (w : WhisperResult) : String × Bool :=
  if s.audioBuffer.isEmpty then ("", true)
  else
    match w with
    | .err => ("", true)
    | .ok p t => if noSpeechThreshold < p then ("", true) else (t, false)

/-- Oracle inputs consumed by one commitUserAudio turn. -/
structure CommitOracle where
  whisper : WhisperResult
  eval : GptEval
  gen : GptText
  done : Bool
  deriving DecidableEq

/-- The if-chain of commitUserAudio that routes a valid turn to the
handler of the current phase (INTRO and CLOSING have no branch). -/
def dispatchTurn (s : State) (txt : String) (o : CommitOracle) : State :=
  match s.phase with
  | .SMALL_TALK => handleSmallTalkResponse s o.gen
  | .INTERVIEW => handleInterviewResponse s txt o.eval o.gen
  | .Q_AND_A => handleQandAResponse s o.done o.gen
  | _ => s

def commitUserAudio (s : State) (o : CommitOracle) : State :=
  if s.isTerminating then s
  else if s.audioBuffer.isEmpty then send s .aiSilence
  else
    let r := transcribeAudio s o.whisper
    if r.2 = true ∨ jsTrim r.1 = "" then
      let s := send s .aiSilence
      let s := { s with audioBuffer := [] }
      startSilenceTimer s defaultSilenceMs
    else
      let s := saveTranscript s .user r.1
      let s := { s with audioBuffer := [] }
      dispatchTurn s r.1 o

def handleUserAudio (s : State) (chunk : String) : State :=
  if s.isTerminating then s
  else
    let s := stopSilenceTimer s
    let s := { s with hasWarnedSilence := false }
    { s with audioBuffer := s.audioBuffer ++ [chunk] }

/-- Body of the silence timer callback: a first timeout nudges (phase
dependent wording, random pick) and re-arms for 20 s; a second timeout
speaks the goodbye and schedules termination after 4 s. -/
def silenceTimerBody (s : State) (k : Nat) : State :=
  if s.hasWarnedSilence = false then
    let s := { s with hasWarnedSilence := true }
    let nudges := if s.phase = .INTRO ∨ s.phase = .SMALL_TALK then nudgesGreetingPhase else nudgesInterviewPhase
    let randomNudge := nudges.getD (k % nudges.length) ""
    let s := speak s randomNudge
    startSilenceTimer s 20000
  else
    let s := speak s silenceGoodbye
    { s with pendingTermination := some reasonSilence }

def fireSilenceTimer (s : State) (k : Nat) : State :=
  match s.silenceTimer with
  | none => s
  | some _ => silenceTimerBody (stopSilenceTimer s) k

def terminateSession (s : State) (reason : String) : State :=
  if s.isTerminating then s
  else
    let s := { s with isTerminating := true }
    let s := stopSilenceTimer s
    let s := if s.wsOpen then send s (.callEnded reason) else s
    { s with closeScheduled := true }

def fireTermTimer (s : State) : State :=
  match s.pendingTermination with
  | none => s
  | some reason => terminateSession { s with pendingTermination := none } reason

def fireCloseTimer (s : State) : State :=
  if s.closeScheduled then
    let s := { s with closeScheduled := false }
    if s.wsOpen then { s with wsOpen := false, closeCount := s.closeCount + 1 } else s
  else s

def initState (questions : List String) (role company jd : String) : State :=
  { phase := .INTRO
    currentQuestionIndex := 0
    questions := questions
    audioBuffer := []
    role := role
    company := company
    jobDescription := jd
    isInsideFollowUp := false
    isTerminating := false
    silenceTimer := none
    hasWarnedSilence := false
    wsOpen := true
    clientSent := []
    transcript := []
    pendingTermination := none
    closeScheduled := false
    closeCount := 0 }

def handleIntro (s : State) : State :=
  let s := speak s (greeting s.role s.company)
  { s with phase := .SMALL_TALK }

def init (questions : List String) (role company jd : String) : State :=
  handleIntro (initState questions role company jd)

/-- Events a live session can process: inbound client events, and the
firing of scheduled timers (silence watchdog, delayed termination,
delayed socket close). -/
inductive Event
  | userAudio (chunk : String)
  | commit (o : CommitOracle)
  | silenceFire (k : Nat)
  | termFire
  | closeFire
  deriving DecidableEq

def step (s : State) (e : Event) : State :=
  match e with
  | .userAudio c => handleUserAudio s c
  | .commit o => commitUserAudio s o
  | .silenceFire k => fireSilenceTimer s k
  | .termFire => fireTermTimer s
  | .closeFire => fireCloseTimer s

def run (s : State) (evs : List Event) : State :=
  match evs with
  | [] => s
  | e :: rest => run (step s e) rest

/-- Number of call_ended events sent to the client so far. -/
def countCallEnded (s : State) : Nat :=
  (s.clientSent.filter fun m =>
    match m with
    | .callEnded _ => true
    | _ => false).length

end RT

namespace RT2

def defaultSilenceMs : Nat := 15000

def gladMsg : String := "Glad to hear it. Let\x27s get started."

def diveInMsg : String := "Great. Let\x27s dive in."

def coversBridge : String := "That covers the main questions I had."

def timeClosingBridge : String := "Looking at the clock, I want to be respectful of your time, so let\x27s pause the questions here."

def qaInviteMsg : String := "Before we wrap up, do you have any questions for me about the role or company?"

def closingMsg : String := "Great! It was a pleasure meeting you. We will be in touch shortly. Have a great day!"

def overtimeClosingMsg : String := "We are officially out of time, but it was a pleasure meeting you. We\x27ll be in touch shortly. Goodbye!"

def holdAck : String := "No problem, take your time."

def fallbackThanks : String := "Thanks."

def silenceGoodbye : String := "Since I haven\x27t heard back, I\x27m going to end the interview now. You can try again later. Goodbye."

def hardLimitApology : String := "I apologize for the interruption, but we\x27ve hit our hard time limit for this session. Thank you for your time today. Goodbye!"

def reasonComplete : String := "Interview Complete"

def reasonSilence : String := "Silence Timeout"

def reasonHardLimit : String := "Hard Time Limit Exceeded"

def nudgesGreetingPhase : List String :=
  [ "Hello? Are you still there?",
    "Just checking in—can you hear me?" ]

def nudgesInterviewPhase : List String :=
  [ "Do you need a moment to think?",
    "Just checking in—are you still with me?" ]

/-- The hard failsafe timer duration in milliseconds: target duration
plus two minutes. -/
def hardLimitMs (durationMinutes : Nat) : Nat :=
  (durationMinutes + 2) * 60 * 1000

/-- State of the time-managed RealtimeSession variant. Wall-clock time
is a millisecond counter supplied to the handlers that call Date.now(). -/
structure State where
  phase : Phase
  currentQuestionIndex : Nat
  questions : List String
  audioBuffer : List String
  role : String
  company : String
  jobDescription : String
  sessionStartTime : Nat
  sessionDurationMinutes : Nat
  hardLimitTimer : Option Nat
  isInsideFollowUp : Bool
  isTerminating : Bool
  silenceTimer : Option Nat
  hasWarnedSilence : Bool
  wsOpen : Bool
  clientSent : List ClientMsg
  transcript : List (Speaker × String)
  pendingTermination : Option String
  closeScheduled : Bool
  closeCount : Nat
  deriving DecidableEq

def send (s : State) (m : ClientMsg) : State :=
  { s with clientSent := s.clientSent ++ [m] }

def saveTranscript (s : State) (sender : Speaker) (text : String) : State :=
  { s with transcript := s.transcript ++ [(sender, text)] }

def stopSilenceTimer (s : State) : State :=
  { s with silenceTimer := none }

def startSilenceTimer (s : State) (ms : Nat) : State :=
  { s with silenceTimer := some ms }

/-- The streaming speak helper of the variant: it persists and sends
but does not arm the silence timer (that is done by the frontend's
playback-complete signal). -/
def speak (s : State) (text : String) : State :=
  if s.isTerminating then s
  else
    let s := stopSilenceTimer s
    let s := saveTranscript s .assistant text
    let s := send s (.aiText text)
    send s .aiAudioChunk

def askGPT (o : GptText) : String :=
  match o with
  | .ok c => if c = "" then RT.moveOnMsg else c
  | .err => RT.continueMsg

/-- Remaining session time in milliseconds at wall-clock instant `now`
(the `remainingMs` computation of moveToNextQuestion). -/
def remainingMs (s : State) (now : Nat) : Int :=
  (s.sessionDurationMinutes : Int) * 60 * 1000 - ((now : Int) - (s.sessionStartTime : Int))

def moveToNextQuestion (s : State) (prevUserText : Option String) (bridge : String) (gen : GptText) (now : Nat) : State :=
  let s := { s with currentQuestionIndex := s.currentQuestionIndex + 1 }
  if s.currentQuestionIndex < s.questions.length ∧ 180000 < remainingMs s now then
    let nextQ := s.questions.getD s.currentQuestionIndex ""
    let finalBridge := if bridge = "" ∧ RT.optTruthy prevUserText then askGPT gen else bridge
    let s := if finalBridge = "" then s else speak s finalBridge
    speak s nextQ
  else
    let s := { s with phase := .Q_AND_A }
    let closingBridge := if remainingMs s now ≤ 180000 then timeClosingBridge else coversBridge
    let s := speak s closingBridge
    speak s qaInviteMsg

def askCurrentQuestion (s : State) : State :=
  if s.currentQuestionIndex < s.questions.length then
    speak s (s.questions.getD s.currentQuestionIndex "")
  else s

/-- Small-talk handler of the variant: a JSON HOLD/CONTINUE decision
with defaults for missing fields, and a catch branch that still moves
to the interview. -/
def handleSmallTalkResponse (s : State) (eval : GptEval) : State :=
  match eval with
  | .fail =>
    let s := speak s diveInMsg
    askCurrentQuestion { s with phase := .INTERVIEW }
  | .ok d r =>
    let decision := if d = "" then "CONTINUE" else d
    let responseText := if r = "" then gladMsg else r
    if decision = "HOLD" then
      startSilenceTimer (speak s responseText) 60000
    else
      let s := speak s responseText
      askCurrentQuestion { s with phase := .INTERVIEW }

def handleInterviewResponse (s : State) (userText : String) (eval : GptEval) (gen : GptText) (now : Nat) : State :=
  if s.isInsideFollowUp then
    moveToNextQuestion { s with isInsideFollowUp := false } (some userText) "" gen now
  else
    match eval with
    | .fail => moveToNextQuestion s (some fallbackThanks) "" gen now
    | .ok decision content =>
      if decision = "HOLD" then
        startSilenceTimer (speak s holdAck) 60000
      else if decision = "FOLLOW_UP" then
        speak { s with isInsideFollowUp := true } content
      else
        moveToNextQuestion s none content gen now

def handleQandAResponse (s : State) (done : Bool) (gen : GptText) (now : Nat) : State :=
  let isOverTime := (s.sessionDurationMinutes : Int) * 60 * 1000 < (now : Int) - (s.sessionStartTime : Int)
  if done = true ∨ isOverTime then
    let s := { s with phase := .CLOSING }
    let s := if isOverTime then speak s overtimeClosingMsg else speak s closingMsg
    { s with pendingTermination := some reasonComplete }
  else
    speak s (askGPT gen)

def transcribeAudio (s : State) (w : WhisperResult) : String × Bool :=
  if s.audioBuffer.isEmpty then ("", true)
  else
    match w with
    | .err => ("", true)
    | .ok p t => if RT.noSpeechThreshold < p then ("", true) else (t, false)

/-- The if-chain of commitUserAudio that routes a valid turn to the
handler of the current phase (INTRO and CLOSING have no branch). -/
def dispatchTurn (s : State) (txt : String) (o : RT.CommitOracle) (now : Nat) : State :=
  match s.phase with
  | .SMALL_TALK => handleSmallTalkResponse s o.eval
  | .INTERVIEW => handleInterviewResponse s txt o.eval o.gen now
  | .Q_AND_A => handleQandAResponse s o.done o.gen now
  | _ => s

def commitUserAudio (s : State) (o : RT.CommitOracle) (now : Nat) : State :=
  if s.isTerminating then s
  else if s.audioBuffer.isEmpty then send s .aiSilence
  else
    let r := transcribeAudio s o.whisper
    if r.2 = true ∨ jsTrim r.1 = "" then
      let s := send s .aiSilence
      let s := { s with audioBuffer := [] }
      startSilenceTimer s defaultSilenceMs
    else
      let s := saveTranscript s .user r.1
      let s := { s with audioBuffer := [] }
      dispatchTurn s r.1 o now

def handleUserAudio (s : State) (chunk : String) : State :=
  if s.isTerminating then s
  else
    let s := stopSilenceTimer s
    let s := { s with hasWarnedSilence := false }
    { s with audioBuffer := s.audioBuffer ++ [chunk] }

def handleAiPlaybackComplete (s : State) : State :=
  if s.isTerminating then s else startSilenceTimer s defaultSilenceMs

def silenceTimerBody (s : State) (k : Nat) : State :=
  if s.hasWarnedSilence = false then
    let s := { s with hasWarnedSilence := true }
    let nudges := if s.phase = .INTRO ∨ s.phase = .SMALL_TALK then nudgesGreetingPhase else nudgesInterviewPhase
    let randomNudge := nudges.getD (k % nudges.length) ""
    let s := speak s randomNudge
    startSilenceTimer s 20000
  else
    let s := speak s silenceGoodbye
    { s with pendingTermination := some reasonSilence }

def fireSilenceTimer (s : State) (k : Nat) : State :=
  match s.silenceTimer with
  | none => s
  | some _ => silenceTimerBody (stopSilenceTimer s) k

/-- Firing of the hard failsafe timer: stop the silence timer, speak the
apology regardless of the current phase, and schedule termination with
the hard-limit reason after the 6 s grace. -/
def fireHardLimit (s : State) : State :=
  match s.hardLimitTimer with
  | none => s
  | some _ =>
    let s := { s with hardLimitTimer := none }
    let s := stopSilenceTimer s
    let s := speak s hardLimitApology
    { s with pendingTermination := some reasonHardLimit }

def terminateSession (s : State) (reason : String) : State :=
  if s.isTerminating then s
  else
    let s := { s with isTerminating := true }
    let s := stopSilenceTimer s
    let s := { s with hardLimitTimer := none }
    let s := if s.wsOpen then send s (.callEnded reason) else s
    { s with closeScheduled := true }

def fireTermTimer (s : State) : State :=
  match s.pendingTermination with
  | none => s
  | some reason => terminateSession { s with pendingTermination := none } reason

def fireCloseTimer (s : State) : State :=
  if s.closeScheduled then
    let s := { s with closeScheduled := false }
    if s.wsOpen then { s with wsOpen := false, closeCount := s.closeCount + 1 } else s
  else s

def initState (questions : List String) (role company jd : String) (durationMinutes : Nat) (now0 : Nat) : State :=
  let dur := if durationMinutes = 0 then 30 else durationMinutes
  { phase := .INTRO
    currentQuestionIndex := 0
    questions := questions
    audioBuffer := []
    role := role
    company := company
    jobDescription := jd
    sessionStartTime := now0
    sessionDurationMinutes := dur
    hardLimitTimer := some (hardLimitMs dur)
    isInsideFollowUp := false
    isTerminating := false
    silenceTimer := none
    hasWarnedSilence := false
    wsOpen := true
    clientSent := []
    transcript := []
    pendingTermination := none
    closeScheduled := false
    closeCount := 0 }

def handleIntro (s : State) : State :=
  let s := speak s (RT.greeting s.role s.company)
  { s with phase := .SMALL_TALK }

def init (questions : List String) (role company jd : String) (durationMinutes : Nat) (now0 : Nat) : State :=
  handleIntro (initState questions role company jd durationMinutes now0)

inductive Event
  | userAudio (chunk : String)
  | commit (o : RT.CommitOracle) (now : Nat)
  | playbackComplete
  | silenceFire (k : Nat)
  | hardLimitFire
  | termFire
  | closeFire
  deriving DecidableEq

def step (s : State) (e : Event) : State :=
  match e with
  | .userAudio c => handleUserAudio s c
  | .commit o now => commitUserAudio s o now
  | .playbackComplete => handleAiPlaybackComplete s
  | .silenceFire k => fireSilenceTimer s k
  | .hardLimitFire => fireHardLimit s
  | .termFire => fireTermTimer s
  | .closeFire => fireCloseTimer s

def run (s : State) (evs : List Event) : State :=
  match evs with
  | [] => s
  | e :: rest => run (step s e) rest

end RT2

namespace ORS

/-- Messages the adapter sends to the upstream realtime socket. -/
inductive UpMsg
  | sessionUpdate (enableVAD : Bool)
  | bufferAppend (audio : String)
  | bufferClear
  | bufferCommit
  | itemCreate (text : String)
  | itemDelete (itemId : String)
  | responseCreate
  | responseCancel
  deriving DecidableEq

/-- Messages the adapter sends to the frontend client. -/
inductive CMsg
  | aiResponseStart
  | aiAudioChunk (delta : String)
  | aiText (delta : String)
  | interruption
  | aiResponseDone
  | errorMsg (message : String)
  deriving DecidableEq

def startSystemMsg : String := "The user has joined the call. Start the interview now. Introduce yourself briefly and ask the first question."

def silenceNudgeMsg : String := "The candidate has been silent for 20 seconds. Gently ask if they are still there or if they need a moment."

def silenceWarnMsg : String := "The candidate is still silent. State clearly: \x27Since I haven\x27t heard from you, I will end the call in 30 seconds if there is no response.\x27"

def inactivityErrorMsg : String := "Session ended due to inactivity."

/-- Word count of a transcribed fragment, as computed by
`userText.trim().split(/\s+/).length`: the number of maximal
whitespace-free runs of the trimmed text (both sides agree on every
text whose trimmed form is non-empty, the only case the filter guard
lets through). -/
def jsWordCount (s : String) : Nat :=
  (jsWords (jsTrim s)).length

/-- In-memory state of one OpenAIRealtimeSession, with the messages
sent on each socket, the persisted transcript rows, and the silence
watchdog bookkeeping. -/
structure State where
  isOpenAIConnected : Bool
  isGreetingPhase : Bool
  isAiSpeaking : Bool
  isInterruptionContext : Bool
  potentialBackchannelId : Option String
  silenceTimeout : Option Nat
  silenceStage : Nat
  timeCheckArmed : Bool
  upstreamSent : List UpMsg
  clientSent : List CMsg
  transcript : List (Speaker × String)
  closed : Bool
  removedFromRegistry : Bool
  deriving DecidableEq

def sendUp (s : State) (m : UpMsg) : State :=
  { s with upstreamSent := s.upstreamSent ++ [m] }

def sendClient (s : State) (m : CMsg) : State :=
  { s with clientSent := s.clientSent ++ [m] }

def saveTranscript (s : State) (who : Speaker) (text : String) : State :=
  { s with transcript := s.transcript ++ [(who, text)] }

def sendSessionUpdate (s : State) (enableVAD : Bool) : State :=
  sendUp s (.sessionUpdate enableVAD)

def injectSystemMessage (s : State) (text : String) : State :=
  if s.isOpenAIConnected = false then s else sendUp s (.itemCreate text)

def forceAiResponse (s : State) : State :=
  sendUp s .responseCreate

def clearSilenceTimerKeepStage (s : State) : State :=
  { s with silenceTimeout := none }

def clearSilenceTimer (s : State) : State :=
  { s with silenceTimeout := none, silenceStage := 0 }

def startSilenceTimer (s : State) : State :=
  let s := clearSilenceTimerKeepStage s
  if s.isGreetingPhase = true ∨ s.isOpenAIConnected = false then s
  else
    let duration := if s.silenceStage = 2 then 30000 else 20000
    { s with silenceTimeout := some duration }

def triggerGreeting (s : State) : State :=
  if s.isOpenAIConnected = false then s
  else
    let s := sendUp s .bufferClear
    let s := sendUp s (.itemCreate startSystemMsg)
    sendUp s .responseCreate

def close (s : State) : State :=
  { s with closed := true, timeCheckArmed := false }

/-- Body of the staged silence watchdog: stage 0 injects a nudge and
re-arms, stage 1 injects the final warning and re-arms for 30 s, stage 2
notifies the client, closes the session and removes it from the
registry via the onClose callback. -/
def handleSilenceTimeout (s : State) : State :=
  if s.silenceStage = 0 then
    let s := injectSystemMessage s silenceNudgeMsg
    let s := forceAiResponse s
    startSilenceTimer { s with silenceStage := 1 }
  else if s.silenceStage = 1 then
    let s := injectSystemMessage s silenceWarnMsg
    let s := forceAiResponse s
    startSilenceTimer { s with silenceStage := 2 }
  else if s.silenceStage = 2 then
    let s := sendClient s (.errorMsg inactivityErrorMsg)
    let s := close s
    { s with removedFromRegistry := true }
  else s

def fireSilenceTimer (s : State) : State :=
  match s.silenceTimeout with
  | none => s
  | some _ => handleSilenceTimeout (clearSilenceTimerKeepStage s)

def handleUserAudio (s : State) (base64Audio : String) : State :=
  if s.isOpenAIConnected = false then s
  else sendUp s (.bufferAppend base64Audio)

def commitUserAudio (s : State) : State :=
  if s.isOpenAIConnected = false then s
  else sendUp s .bufferCommit

/-- Handler for the upstream conversation.item.input_audio_transcription.completed
event: the smart barge-in filter discards a sub-3-word non-empty fragment
that arrived in an interruption context (deleting it upstream and arming
the response-cancel flag); otherwise a non-empty fragment is persisted
as a candidate transcript row. -/
def onTranscriptionCompleted (s : State) (itemId : String) (transcript : String) : State :=
  let userText := transcript
  let wordCount := jsWordCount userText
  if s.isInterruptionContext = true ∧ wordCount < 3 ∧ jsTrim userText ≠ "" then
    let s := sendUp s (.itemDelete itemId)
    { s with potentialBackchannelId := some itemId, isInterruptionContext := false }
  else
    let s := { s with isInterruptionContext := false, potentialBackchannelId := none }
    if jsTrim userText ≠ "" then saveTranscript s .user userText else s

def onOutputItemAdded (s : State) : State :=
  match s.potentialBackchannelId with
  | none => s
  | some _ =>
    let s := sendUp s .responseCancel
    { s with potentialBackchannelId := none }

def onSpeechStarted (s : State) : State :=
  let s := sendClient s .interruption
  let s := clearSilenceTimer s
  if s.isAiSpeaking = true then { s with isInterruptionContext := true }
  else { s with isInterruptionContext := false }

def onResponseDone (s : State) : State :=
  let s := { s with isAiSpeaking := false }
  let s := sendClient s .aiResponseDone
  let s :=
    if s.isGreetingPhase = true then
      let s := { s with isGreetingPhase := false }
      let s := sendSessionUpdate s true
      { s with timeCheckArmed := true }
    else s
  startSilenceTimer s

/-- Upstream-facing events of the adapter (events received from the
realtime socket plus the firing of the local silence timer). -/
inductive Event
  | socketOpen
  | sessionUpdated
  | outputItemAdded
  | responseCreated
  | audioDelta (delta : String)
  | transcriptDelta (delta : String)
  | speechStarted
  | responseDone
  | transcriptionCompleted (itemId : String) (transcript : String)
  | aiTranscriptDone (transcript : String)
  | silenceFire
  deriving DecidableEq

def step (s : State) (e : Event) : State :=
  match e with
  | .socketOpen =>
    sendSessionUpdate { s with isOpenAIConnected := true } false
  | .sessionUpdated =>
    if s.isGreetingPhase = true then triggerGreeting s else s
  | .outputItemAdded => onOutputItemAdded s
  | .responseCreated =>
    sendClient { s with isAiSpeaking := true } .aiResponseStart
  | .audioDelta d => sendClient s (.aiAudioChunk d)
  | .transcriptDelta d => sendClient s (.aiText d)
  | .speechStarted => onSpeechStarted s
  | .responseDone => onResponseDone s
  | .transcriptionCompleted itemId t => onTranscriptionCompleted s itemId t
  | .aiTranscriptDone t =>
    if jsTrim t ≠ "" then saveTranscript s .assistant t else s
  | .silenceFire => fireSilenceTimer s

def init : State :=
  { isOpenAIConnected := false
    isGreetingPhase := true
    isAiSpeaking := false
    isInterruptionContext := false
    potentialBackchannelId := none
    silenceTimeout := none
    silenceStage := 0
    timeCheckArmed := false
    upstreamSent := []
    clientSent := []
    transcript := []
    closed := false
    removedFromRegistry := false }

def run (s : State) (evs : List Event) : State :=
  match evs with
  | [] => s
  | e :: rest => run (step s e) rest

end ORS

namespace Relay

def MAX_CONCURRENT_SESSIONS : Nat := 10

def capacityErrorMsg : String := "Server is at max capacity. Please try again later."

def capacityCloseCode : Nat := 1013

def capacityCloseReason : String := "Server Full"

def notFoundErrorMsg : String := "Session not found"

def notFoundCloseCode : Nat := 1008

def internalErrorCloseCode : Nat := 1011

/-- Outcome of one new WebSocket connection attempt. -/
inductive ConnOutcome
  | rejectedCapacity (message : String) (closeCode : Nat) (closeReason : String)
  | awaitingHandshake
  deriving DecidableEq

/-- Result of processing a connection or handshake: the outcome, the
registry after the step, and whether an Orchestrator was constructed. -/
structure ConnResult where
  outcome : ConnOutcome
  registry : List String
  orchestratorCreated : Bool
  deriving DecidableEq

/-- The capacity gate run on every new connection, before any session
lookup or Orchestrator construction. -/
def acceptConnection (registry : List String) : ConnResult :=
  if MAX_CONCURRENT_SESSIONS ≤ registry.length then
    { outcome := .rejectedCapacity capacityErrorMsg capacityCloseCode capacityCloseReason
      registry := registry
      orchestratorCreated := false }
  else
    { outcome := .awaitingHandshake, registry := registry, orchestratorCreated := false }

/-- Outcome of the per-session handshake that runs after the capacity
gate admitted the connection. -/
inductive SessionInitOutcome
  | rejectedNotFound (message : String) (closeCode : Nat) (closeReason : String)
  | started
  deriving DecidableEq

structure SessionInitResult where
  outcome : SessionInitOutcome
  registry : List String
  orchestratorCreated : Bool
  deriving DecidableEq

def connectSession (registry : List String) (sid : String) (sessionFound : Bool) : SessionInitResult :=
  if sessionFound = false then
    { outcome := .rejectedNotFound notFoundErrorMsg notFoundCloseCode notFoundErrorMsg
      registry := registry
      orchestratorCreated := false }
  else
    { outcome := .started, registry := registry ++ [sid], orchestratorCreated := true }

end Relay

/-- A nudge utterance of the first silence stage has been persisted as
an assistant transcript row. -/
def RT.nudgeSpoken (s : RT.State) : Prop :=
  ∃ t ∈ RT.nudgesGreetingPhase ++ RT.nudgesInterviewPhase, (Speaker.assistant, t) ∈ s.transcript

/-- Step relation summary used by the silence-watchdog invariant: the
successor state only appends to the transcript and only appends
non-call_ended messages to the client stream. -/
def RT.Extends (a b : RT.State) : Prop :=
  (∃ l, b.transcript = a.transcript ++ l) ∧
  (∃ l, b.clientSent = a.clientSent ++ l ∧ ∀ r, ClientMsg.callEnded r ∉ l)

/-- Run invariant of a RealtimeSession: once the terminating latch is
set no timer or delayed termination is pending, and any silence
escalation beyond level 0 (the warned flag, a scheduled or delivered
Silence Timeout termination) is preceded by a persisted nudge. -/
def RT.Inv (s : RT.State) : Prop :=
  (s.isTerminating = true → s.silenceTimer = none ∧ s.pendingTermination = none) ∧
  (s.hasWarnedSilence = true → RT.nudgeSpoken s) ∧
  (s.pendingTermination = some RT.reasonSilence → RT.nudgeSpoken s) ∧
  (ClientMsg.callEnded RT.reasonSilence ∈ s.clientSent → RT.nudgeSpoken s)

/-- The client socket is closed at most once: either no close has
happened yet, or exactly one close has happened and the socket is no
longer open. -/
def RT.CloseInv (s : RT.State) : Prop :=
  s.closeCount = 0 ∨ (s.closeCount = 1 ∧ s.wsOpen = false)

/-- Cursor invariant of the base RealtimeSession: for a question list
of length n that is never replaced, the cursor stays at 0 before the
interview, stays strictly below n while in the INTERVIEW phase, and
never exceeds n. -/
def RT.CursorInv (n : Nat) (s : RT.State) : Prop :=
  s.questions.length = n ∧ s.currentQuestionIndex ≤ n ∧
  (s.phase = Phase.INTERVIEW → s.currentQuestionIndex < n) ∧
  (s.phase = Phase.INTRO ∨ s.phase = Phase.SMALL_TALK → s.currentQuestionIndex = 0)

/-- Cursor invariant of the time-managed variant: for a question list
of length n that is never replaced, the cursor stays at 0 before the
interview, stays strictly below n while in the INTERVIEW phase, and
never exceeds n. -/
def RT2.CursorInv (n : Nat) (s : RT2.State) : Prop :=
  s.questions.length = n ∧ s.currentQuestionIndex ≤ n ∧
  (s.phase = Phase.INTERVIEW → s.currentQuestionIndex < n) ∧
  (s.phase = Phase.INTRO ∨ s.phase = Phase.SMALL_TALK → s.currentQuestionIndex = 0)

/-- Run invariant of the staged adapter watchdog: the silence timer is
only armed while connected, a stage at or past 1 means the nudge was
injected, stage 2 means the final warning was injected, and a session
torn down by the watchdog had both injected before. -/
def ORS.WatchdogInv (s : ORS.State) : Prop :=
  (s.silenceTimeout ≠ none → s.isOpenAIConnected = true) ∧
  (1 ≤ s.silenceStage → ORS.UpMsg.itemCreate ORS.silenceNudgeMsg ∈ s.upstreamSent) ∧
  (s.silenceStage = 2 → ORS.UpMsg.itemCreate ORS.silenceWarnMsg ∈ s.upstreamSent) ∧
  (s.removedFromRegistry = true →
    ORS.UpMsg.itemCreate ORS.silenceNudgeMsg ∈ s.upstreamSent ∧
    ORS.UpMsg.itemCreate ORS.silenceWarnMsg ∈ s.upstreamSent)

/-! Frame lemmas for the RT machine. -/

@[simp] theorem rt_speak_phase (s : RT.State) (t : String) : (RT.speak s t).phase = s.phase := by
  unfold RT.speak
  split <;> rfl

@[simp] theorem rt_speak_cursor (s : RT.State) (t : String) :
    (RT.speak s t).currentQuestionIndex = s.currentQuestionIndex := by
  unfold RT.speak
  split <;> rfl

@[simp] theorem rt_speak_questions (s : RT.State) (t : String) :
    (RT.speak s t).questions = s.questions := by
  unfold RT.speak
  split <;> rfl

@[simp] theorem rt_speak_isTerminating (s : RT.State) (t : String) :
    (RT.speak s t).isTerminating = s.isTerminating := by
  unfold RT.speak
  split <;> rfl

@[simp] theorem rt_speak_isInsideFollowUp (s : RT.State) (t : String) :
    (RT.speak s t).isInsideFollowUp = s.isInsideFollowUp := by
  unfold RT.speak
  split <;> rfl

@[simp] theorem rt_speak_hasWarnedSilence (s : RT.State) (t : String) :
    (RT.speak s t).hasWarnedSilence = s.hasWarnedSilence := by
  unfold RT.speak
  split <;> rfl

@[simp] theorem rt_speak_audioBuffer (s : RT.State) (t : String) :
    (RT.speak s t).audioBuffer = s.audioBuffer := by
  unfold RT.speak
  split <;> rfl

@[simp] theorem rt_speak_wsOpen (s : RT.State) (t : String) :
    (RT.speak s t).wsOpen = s.wsOpen := by
  unfold RT.speak
  split <;> rfl

@[simp] theorem rt_speak_pendingTermination (s : RT.State) (t : String) :
    (RT.speak s t).pendingTermination = s.pendingTermination := by
  unfold RT.speak
  split <;> rfl

@[simp] theorem rt_speak_closeScheduled (s : RT.State) (t : String) :
    (RT.speak s t).closeScheduled = s.closeScheduled := by
  unfold RT.speak
  split <;> rfl

@[simp] theorem rt_speak_closeCount (s : RT.State) (t : String) :
    (RT.speak s t).closeCount = s.closeCount := by
  unfold RT.speak
  split <;> rfl

theorem rt_speak_of_terminating (s : RT.State) (t : String) (h : s.isTerminating = true) :
    RT.speak s t = s := by
  unfold RT.speak
  simp [h]

@[simp] theorem rt_askCurrentQuestion_phase (s : RT.State) :
    (RT.askCurrentQuestion s).phase = s.phase := by
  simp only [RT.askCurrentQuestion]
  split <;> simp

@[simp] theorem rt_askCurrentQuestion_cursor (s : RT.State) :
    (RT.askCurrentQuestion s).currentQuestionIndex = s.currentQuestionIndex := by
  simp only [RT.askCurrentQuestion]
  split <;> simp

@[simp] theorem rt_askCurrentQuestion_questions (s : RT.State) :
    (RT.askCurrentQuestion s).questions = s.questions := by
  simp only [RT.askCurrentQuestion]
  split <;> simp

@[simp] theorem rt_askCurrentQuestion_isTerminating (s : RT.State) :
    (RT.askCurrentQuestion s).isTerminating = s.isTerminating := by
  simp only [RT.askCurrentQuestion]
  split <;> simp

theorem rt_moveToNextQuestion_cursor (s : RT.State) (p : Option String) (b : String) (g : GptText) :
    (RT.moveToNextQuestion s p b g).currentQuestionIndex = s.currentQuestionIndex + 1 := by
  simp only [RT.moveToNextQuestion]
  repeat' split
  all_goals simp

theorem rt_moveToNextQuestion_questions (s : RT.State) (p : Option String) (b : String) (g : GptText) :
    (RT.moveToNextQuestion s p b g).questions = s.questions := by
  simp only [RT.moveToNextQuestion]
  repeat' split
  all_goals simp

theorem rt_moveToNextQuestion_isTerminating (s : RT.State) (p : Option String) (b : String) (g : GptText) :
    (RT.moveToNextQuestion s p b g).isTerminating = s.isTerminating := by
  simp only [RT.moveToNextQuestion]
  repeat' split
  all_goals simp

theorem rt_moveToNextQuestion_phase (s : RT.State) (p : Option String) (b : String) (g : GptText) :
    (RT.moveToNextQuestion s p b g).phase =
      if s.currentQuestionIndex + 1 < s.questions.length then s.phase else Phase.Q_AND_A := by
  simp only [RT.moveToNextQuestion]
  split
  · repeat' split
    all_goals simp
  · simp

theorem rt_handleSmallTalkResponse_phase (s : RT.State) (g : GptText) :
    (RT.handleSmallTalkResponse s g).phase = Phase.INTERVIEW := by
  simp only [RT.handleSmallTalkResponse]
  simp

theorem rt_handleInterviewResponse_phase (s : RT.State) (t : String) (ev : GptEval) (g : GptText) :
    (RT.handleInterviewResponse s t ev g).phase = s.phase ∨
      (RT.handleInterviewResponse s t ev g).phase = Phase.Q_AND_A := by
  simp only [RT.handleInterviewResponse]
  split
  · rw [rt_moveToNextQuestion_phase]
    split <;> simp
  · split
    · rw [rt_moveToNextQuestion_phase]
      split <;> simp
    · split
      · simp [RT.startSilenceTimer]
      · split
        · simp
        · rw [rt_moveToNextQuestion_phase]
          split <;> simp

theorem rt_handleQandAResponse_phase (s : RT.State) (d : Bool) (g : GptText) :
    (RT.handleQandAResponse s d g).phase = s.phase ∨
      (RT.handleQandAResponse s d g).phase = Phase.CLOSING := by
  simp only [RT.handleQandAResponse]
  split <;> simp

theorem rt_handleInterviewResponse_isTerminating (s : RT.State) (t : String) (ev : GptEval) (g : GptText) :
    (RT.handleInterviewResponse s t ev g).isTerminating = s.isTerminating := by
  simp only [RT.handleInterviewResponse]
  split
  · rw [rt_moveToNextQuestion_isTerminating]
  · split
    · rw [rt_moveToNextQuestion_isTerminating]
    · split
      · simp [RT.startSilenceTimer]
      · split
        · simp
        · rw [rt_moveToNextQuestion_isTerminating]

theorem rt_handleQandAResponse_isTerminating (s : RT.State) (d : Bool) (g : GptText) :
    (RT.handleQandAResponse s d g).isTerminating = s.isTerminating := by
  simp only [RT.handleQandAResponse]
  split <;> simp

theorem rt_dispatchTurn_phase_mono (s : RT.State) (txt : String) (o : RT.CommitOracle) :
    phaseIdx s.phase ≤ phaseIdx (RT.dispatchTurn s txt o).phase := by
  unfold RT.dispatchTurn
  split
  all_goals rename_i hp
  · rw [hp, rt_handleSmallTalkResponse_phase]
    decide
  · rcases rt_handleInterviewResponse_phase s txt o.eval o.gen with h | h
    · rw [h]
    · rw [h, hp]
      decide
  · rcases rt_handleQandAResponse_phase s o.done o.gen with h | h
    · rw [h]
    · rw [h, hp]
      decide
  · exact le_refl _

theorem rt_dispatchTurn_isTerminating (s : RT.State) (txt : String) (o : RT.CommitOracle) :
    (RT.dispatchTurn s txt o).isTerminating = s.isTerminating := by
  unfold RT.dispatchTurn
  split
  · simp [RT.handleSmallTalkResponse]
  · rw [rt_handleInterviewResponse_isTerminating]
  · rw [rt_handleQandAResponse_isTerminating]
  · rfl

theorem rt_commit_phase_mono (s : RT.State) (o : RT.CommitOracle) :
    phaseIdx s.phase ≤ phaseIdx (RT.commitUserAudio s o).phase := by
  simp only [RT.commitUserAudio]
  split
  · exact le_refl _
  split
  · simp [RT.send]
  split
  · simp [RT.send, RT.startSilenceTimer]
  · have h := rt_dispatchTurn_phase_mono
      { RT.saveTranscript s Speaker.user (RT.transcribeAudio s o.whisper).1 with audioBuffer := [] }
      (RT.transcribeAudio s o.whisper).1 o
    simpa [RT.saveTranscript] using h

theorem rt_step_phase_mono (s : RT.State) (e : RT.Event) :
    phaseIdx s.phase ≤ phaseIdx (RT.step s e).phase := by
  cases e with
  | userAudio c =>
    simp only [RT.step, RT.handleUserAudio]
    split <;> simp [RT.stopSilenceTimer]
  | commit o => exact rt_commit_phase_mono s o
  | silenceFire k =>
    simp only [RT.step, RT.fireSilenceTimer]
    split
    · exact le_refl _
    · simp only [RT.silenceTimerBody]
      split <;> simp [RT.stopSilenceTimer, RT.startSilenceTimer]
  | termFire =>
    simp only [RT.step, RT.fireTermTimer]
    split
    · exact le_refl _
    · simp only [RT.terminateSession]
      split
      · simp
      · split <;> simp [RT.stopSilenceTimer, RT.send]
  | closeFire =>
    simp only [RT.step, RT.fireCloseTimer]
    split
    · split <;> simp
    · exact le_refl _

theorem rt_step_latch_mono (s : RT.State) (e : RT.Event) :
    s.isTerminating ≤ (RT.step s e).isTerminating := by
  cases e with
  | userAudio c =>
    simp only [RT.step, RT.handleUserAudio]
    split <;> simp [RT.stopSilenceTimer]
  | commit o =>
    show s.isTerminating ≤ (RT.commitUserAudio s o).isTerminating
    simp only [RT.commitUserAudio]
    split
    · exact le_refl _
    split
    · simp [RT.send]
    split
    · simp [RT.send, RT.startSilenceTimer]
    · rw [rt_dispatchTurn_isTerminating]
      simp [RT.saveTranscript]
  | silenceFire k =>
    simp only [RT.step, RT.fireSilenceTimer]
    split
    · exact le_refl _
    · simp only [RT.silenceTimerBody]
      split <;> simp [RT.stopSilenceTimer, RT.startSilenceTimer]
  | termFire =>
    simp only [RT.step, RT.fireTermTimer]
    split
    · exact le_refl _
    · simp only [RT.terminateSession]
      split
      · simp_all
      · split <;> simp [RT.stopSilenceTimer, RT.send]
  | closeFire =>
    simp only [RT.step, RT.fireCloseTimer]
    split
    · split <;> simp
    · exact le_refl _

theorem rt_run_phase_mono (s : RT.State) (evs : List RT.Event) :
    phaseIdx s.phase ≤ phaseIdx (RT.run s evs).phase := by
  induction evs generalizing s with
  | nil => exact le_refl _
  | cons e rest ih =>
    calc phaseIdx s.phase ≤ phaseIdx (RT.step s e).phase := rt_step_phase_mono s e
      _ ≤ phaseIdx (RT.run (RT.step s e) rest).phase := ih (RT.step s e)

theorem rt_extends_refl (a : RT.State) : RT.Extends a a :=
  ⟨⟨[], by simp⟩, ⟨[], by simp⟩⟩

theorem rt_extends_trans {a b c : RT.State} (h1 : RT.Extends a b) (h2 : RT.Extends b c) :
    RT.Extends a c := by
  obtain ⟨⟨l1, hl1⟩, ⟨m1, hm1, hcm1⟩⟩ := h1
  obtain ⟨⟨l2, hl2⟩, ⟨m2, hm2, hcm2⟩⟩ := h2
  refine ⟨⟨l1 ++ l2, by rw [hl2, hl1, List.append_assoc]⟩,
    ⟨m1 ++ m2, by rw [hm2, hm1, List.append_assoc], ?_⟩⟩
  intro r hr
  rcases List.mem_append.mp hr with h | h
  · exact hcm1 r h
  · exact hcm2 r h

theorem rt_extends_transcript_mem {a b : RT.State} (h : RT.Extends a b)
    {x : Speaker × String} (hx : x ∈ a.transcript) : x ∈ b.transcript := by
  obtain ⟨⟨l, hl⟩, _⟩ := h
  rw [hl]
  exact List.mem_append_left _ hx

theorem rt_extends_callEnded {a b : RT.State} (h : RT.Extends a b) {r : String}
    (hr : ClientMsg.callEnded r ∈ b.clientSent) : ClientMsg.callEnded r ∈ a.clientSent := by
  obtain ⟨_, ⟨m, hm, hcm⟩⟩ := h
  rw [hm] at hr
  rcases List.mem_append.mp hr with h | h
  · exact h
  · exact absurd h (hcm r)

theorem rt_extends_nudgeSpoken {a b : RT.State} (h : RT.Extends a b)
    (hn : RT.nudgeSpoken a) : RT.nudgeSpoken b := by
  obtain ⟨t, ht, hmem⟩ := hn
  exact ⟨t, ht, rt_extends_transcript_mem h hmem⟩

theorem rt_extends_of_eq {a b c : RT.State} (h : RT.Extends a b)
    (ht : c.transcript = b.transcript) (hc : c.clientSent = b.clientSent) : RT.Extends a c := by
  obtain ⟨⟨l, hl⟩, ⟨m, hm, hcm⟩⟩ := h
  exact ⟨⟨l, by rw [ht, hl]⟩, ⟨m, by rw [hc, hm], hcm⟩⟩

theorem rt_extends_speak (s : RT.State) (t : String) : RT.Extends s (RT.speak s t) := by
  unfold RT.speak
  split
  · exact rt_extends_refl s
  · refine ⟨⟨[(Speaker.assistant, t)], ?_⟩,
      ⟨[ClientMsg.aiText t, ClientMsg.aiAudioChunk], ?_, by intro r; simp⟩⟩
    · simp [RT.stopSilenceTimer, RT.saveTranscript, RT.send, RT.startSilenceTimer]
    · simp [RT.stopSilenceTimer, RT.saveTranscript, RT.send, RT.startSilenceTimer]

theorem rt_extends_speak_of (s s' : RT.State) (h : RT.Extends s s') (t : String) :
    RT.Extends s (RT.speak s' t) :=
  rt_extends_trans h (rt_extends_speak s' t)

theorem rt_extends_askCurrentQuestion (s : RT.State) : RT.Extends s (RT.askCurrentQuestion s) := by
  unfold RT.askCurrentQuestion
  split
  · exact rt_extends_speak s _
  · exact rt_extends_refl s

theorem rt_extends_moveToNextQuestion (s : RT.State) (p : Option String) (b : String) (g : GptText) :
    RT.Extends s (RT.moveToNextQuestion s p b g) := by
  simp only [RT.moveToNextQuestion]
  have h0 : RT.Extends s { s with currentQuestionIndex := s.currentQuestionIndex + 1 } :=
    ⟨⟨[], by simp⟩, ⟨[], by simp⟩⟩
  have h1 : RT.Extends s
      { s with currentQuestionIndex := s.currentQuestionIndex + 1, phase := Phase.Q_AND_A } :=
    ⟨⟨[], by simp⟩, ⟨[], by simp⟩⟩
  split
  · apply rt_extends_speak_of
    repeat' split
    all_goals first
      | exact h0
      | exact rt_extends_speak_of _ _ h0 _
  · exact rt_extends_speak_of _ _ (rt_extends_speak_of _ _ h1 _) _

theorem rt_extends_handleSmallTalkResponse (s : RT.State) (g : GptText) :
    RT.Extends s (RT.handleSmallTalkResponse s g) := by
  simp only [RT.handleSmallTalkResponse]
  refine rt_extends_trans (b := { RT.speak s (RT.askGPT g) with phase := Phase.INTERVIEW }) ?_
    (rt_extends_askCurrentQuestion _)
  exact rt_extends_of_eq (rt_extends_speak s (RT.askGPT g)) rfl rfl

theorem rt_extends_handleInterviewResponse (s : RT.State) (t : String) (ev : GptEval) (g : GptText) :
    RT.Extends s (RT.handleInterviewResponse s t ev g) := by
  simp only [RT.handleInterviewResponse]
  split
  · exact rt_extends_of_eq
      (rt_extends_moveToNextQuestion { s with isInsideFollowUp := false } (some t) "" g)
      rfl rfl
  · split
    · exact rt_extends_moveToNextQuestion s (some RT.fallbackThanks) "" g
    · split
      · exact rt_extends_of_eq (rt_extends_speak s RT.holdAck) rfl rfl
      · split
        · exact rt_extends_of_eq (rt_extends_speak { s with isInsideFollowUp := true } _) rfl rfl
        · exact rt_extends_moveToNextQuestion s none _ g

theorem rt_extends_handleQandAResponse (s : RT.State) (d : Bool) (g : GptText) :
    RT.Extends s (RT.handleQandAResponse s d g) := by
  simp only [RT.handleQandAResponse]
  split
  · exact rt_extends_of_eq
      (rt_extends_speak_of _ _ (⟨⟨[], by simp⟩, ⟨[], by simp⟩⟩ :
        RT.Extends s { s with phase := Phase.CLOSING }) RT.closingMsg) rfl rfl
  · exact rt_extends_speak s _

theorem rt_extends_dispatchTurn (s : RT.State) (t : String) (o : RT.CommitOracle) :
    RT.Extends s (RT.dispatchTurn s t o) := by
  unfold RT.dispatchTurn
  split
  · exact rt_extends_handleSmallTalkResponse s o.gen
  · exact rt_extends_handleInterviewResponse s t o.eval o.gen
  · exact rt_extends_handleQandAResponse s o.done o.gen
  · exact rt_extends_refl s

theorem rt_extends_commit (s : RT.State) (o : RT.CommitOracle) :
    RT.Extends s (RT.commitUserAudio s o) := by
  simp only [RT.commitUserAudio]
  split
  · exact rt_extends_refl s
  split
  · exact ⟨⟨[], by simp [RT.send]⟩, ⟨[ClientMsg.aiSilence], by simp [RT.send], by intro r; simp⟩⟩
  split
  · exact ⟨⟨[], by simp [RT.send, RT.startSilenceTimer]⟩,
      ⟨[ClientMsg.aiSilence], by simp [RT.send, RT.startSilenceTimer], by intro r; simp⟩⟩
  · have h1 : RT.Extends s
        { RT.saveTranscript s Speaker.user (RT.transcribeAudio s o.whisper).1 with audioBuffer := [] } :=
      ⟨⟨[(Speaker.user, (RT.transcribeAudio s o.whisper).1)], by simp [RT.saveTranscript]⟩,
        ⟨[], by simp [RT.saveTranscript]⟩⟩
    exact rt_extends_trans h1 (rt_extends_dispatchTurn _ _ o)

theorem rt_extends_silenceBody (s : RT.State) (k : Nat) :
    RT.Extends s (RT.silenceTimerBody s k) := by
  simp only [RT.silenceTimerBody]
  split
  · refine rt_extends_of_eq (a := s)
      (rt_extends_speak_of _ _ (⟨⟨[], by simp⟩, ⟨[], by simp⟩⟩ :
        RT.Extends s { s with hasWarnedSilence := true }) _) rfl rfl
  · exact rt_extends_of_eq (rt_extends_speak s RT.silenceGoodbye) rfl rfl

theorem rt_speak_transcript_eq (s : RT.State) (t : String) (hT : s.isTerminating = false) :
    (RT.speak s t).transcript = s.transcript ++ [(Speaker.assistant, t)] := by
  unfold RT.speak
  rw [if_neg (by simp [hT])]
  simp [RT.stopSilenceTimer, RT.saveTranscript, RT.send, RT.startSilenceTimer]

theorem rt_speak_clientSent_eq (s : RT.State) (t : String) (hT : s.isTerminating = false) :
    (RT.speak s t).clientSent = s.clientSent ++ [ClientMsg.aiText t, ClientMsg.aiAudioChunk] := by
  unfold RT.speak
  rw [if_neg (by simp [hT])]
  simp [RT.stopSilenceTimer, RT.saveTranscript, RT.send, RT.startSilenceTimer]

theorem rt_getD_mod_mem (l : List String) (hl : l ≠ []) (k : Nat) :
    l.getD (k % l.length) "" ∈ l := by
  have hlen : 0 < l.length := List.length_pos.mpr hl
  have hk : k % l.length < l.length := Nat.mod_lt _ hlen
  rw [List.getD_eq_getElem l "" hk]
  exact List.getElem_mem hk

theorem rt_moveToNextQuestion_hasWarned (s : RT.State) (p : Option String) (b : String) (g : GptText) :
    (RT.moveToNextQuestion s p b g).hasWarnedSilence = s.hasWarnedSilence := by
  simp only [RT.moveToNextQuestion]
  repeat' split
  all_goals simp

theorem rt_moveToNextQuestion_pending (s : RT.State) (p : Option String) (b : String) (g : GptText) :
    (RT.moveToNextQuestion s p b g).pendingTermination = s.pendingTermination := by
  simp only [RT.moveToNextQuestion]
  repeat' split
  all_goals simp

theorem rt_askCurrentQuestion_hasWarned (s : RT.State) :
    (RT.askCurrentQuestion s).hasWarnedSilence = s.hasWarnedSilence := by
  unfold RT.askCurrentQuestion
  split <;> simp

theorem rt_askCurrentQuestion_pending (s : RT.State) :
    (RT.askCurrentQuestion s).pendingTermination = s.pendingTermination := by
  unfold RT.askCurrentQuestion
  split <;> simp

theorem rt_handleSmallTalkResponse_hasWarned (s : RT.State) (g : GptText) :
    (RT.handleSmallTalkResponse s g).hasWarnedSilence = s.hasWarnedSilence := by
  simp only [RT.handleSmallTalkResponse]
  rw [rt_askCurrentQuestion_hasWarned]
  simp

theorem rt_handleSmallTalkResponse_pending (s : RT.State) (g : GptText) :
    (RT.handleSmallTalkResponse s g).pendingTermination = s.pendingTermination := by
  simp only [RT.handleSmallTalkResponse]
  rw [rt_askCurrentQuestion_pending]
  simp

theorem rt_handleSmallTalkResponse_isTerminating (s : RT.State) (g : GptText) :
    (RT.handleSmallTalkResponse s g).isTerminating = s.isTerminating := by
  simp only [RT.handleSmallTalkResponse]
  rw [rt_askCurrentQuestion_isTerminating]
  simp

theorem rt_handleInterviewResponse_hasWarned (s : RT.State) (t : String) (ev : GptEval) (g : GptText) :
    (RT.handleInterviewResponse s t ev g).hasWarnedSilence = s.hasWarnedSilence := by
  simp only [RT.handleInterviewResponse]
  split
  · rw [rt_moveToNextQuestion_hasWarned]
  · split
    · rw [rt_moveToNextQuestion_hasWarned]
    · split
      · simp [RT.startSilenceTimer]
      · split
        · simp
        · rw [rt_moveToNextQuestion_hasWarned]

theorem rt_handleInterviewResponse_pending (s : RT.State) (t : String) (ev : GptEval) (g : GptText) :
    (RT.handleInterviewResponse s t ev g).pendingTermination = s.pendingTermination := by
  simp only [RT.handleInterviewResponse]
  split
  · rw [rt_moveToNextQuestion_pending]
  · split
    · rw [rt_moveToNextQuestion_pending]
    · split
      · simp [RT.startSilenceTimer]
      · split
        · simp
        · rw [rt_moveToNextQuestion_pending]

theorem rt_handleQandAResponse_hasWarned (s : RT.State) (d : Bool) (g : GptText) :
    (RT.handleQandAResponse s d g).hasWarnedSilence = s.hasWarnedSilence := by
  simp only [RT.handleQandAResponse]
  split <;> simp

theorem rt_handleQandAResponse_pending (s : RT.State) (d : Bool) (g : GptText) :
    (RT.handleQandAResponse s d g).pendingTermination = s.pendingTermination ∨
      (RT.handleQandAResponse s d g).pendingTermination = some RT.reasonComplete := by
  simp only [RT.handleQandAResponse]
  split
  · right
    rfl
  · left
    simp

theorem rt_dispatchTurn_hasWarned (s : RT.State) (t : String) (o : RT.CommitOracle) :
    (RT.dispatchTurn s t o).hasWarnedSilence = s.hasWarnedSilence := by
  unfold RT.dispatchTurn
  split
  · rw [rt_handleSmallTalkResponse_hasWarned]
  · rw [rt_handleInterviewResponse_hasWarned]
  · rw [rt_handleQandAResponse_hasWarned]
  · rfl

theorem rt_dispatchTurn_pending (s : RT.State) (t : String) (o : RT.CommitOracle) :
    (RT.dispatchTurn s t o).pendingTermination = s.pendingTermination ∨
      (RT.dispatchTurn s t o).pendingTermination = some RT.reasonComplete := by
  unfold RT.dispatchTurn
  split
  · left
    rw [rt_handleSmallTalkResponse_pending]
  · left
    rw [rt_handleInterviewResponse_pending]
  · exact rt_handleQandAResponse_pending _ _ _
  · left
    rfl

theorem rt_commit_hasWarned (s : RT.State) (o : RT.CommitOracle) :
    (RT.commitUserAudio s o).hasWarnedSilence = s.hasWarnedSilence := by
  simp only [RT.commitUserAudio]
  split
  · rfl
  split
  · simp [RT.send]
  split
  · simp [RT.send, RT.startSilenceTimer]
  · rw [rt_dispatchTurn_hasWarned]
    simp [RT.saveTranscript]

theorem rt_commit_pending (s : RT.State) (o : RT.CommitOracle) :
    (RT.commitUserAudio s o).pendingTermination = s.pendingTermination ∨
      (RT.commitUserAudio s o).pendingTermination = some RT.reasonComplete := by
  simp only [RT.commitUserAudio]
  split
  · left
    rfl
  split
  · left
    simp [RT.send]
  split
  · left
    simp [RT.send, RT.startSilenceTimer]
  · rcases rt_dispatchTurn_pending
      { RT.saveTranscript s Speaker.user (RT.transcribeAudio s o.whisper).1 with audioBuffer := [] }
      (RT.transcribeAudio s o.whisper).1 o with hp | hp
    · left
      rw [hp]
      simp [RT.saveTranscript]
    · right
      exact hp

theorem rt_commit_isTerminating (s : RT.State) (o : RT.CommitOracle) :
    (RT.commitUserAudio s o).isTerminating = s.isTerminating := by
  simp only [RT.commitUserAudio]
  split
  · rfl
  split
  · simp [RT.send]
  split
  · simp [RT.send, RT.startSilenceTimer]
  · rw [rt_dispatchTurn_isTerminating]
    simp [RT.saveTranscript]

theorem rt_nudgeSpoken_append (s : RT.State) (l : List (Speaker × String))
    (h : RT.nudgeSpoken s) (s' : RT.State) (hl : s'.transcript = s.transcript ++ l) :
    RT.nudgeSpoken s' := by
  obtain ⟨t, ht, hm⟩ := h
  exact ⟨t, ht, by rw [hl]; exact List.mem_append_left _ hm⟩

theorem rt_inv_step (s : RT.State) (e : RT.Event) (h : RT.Inv s) : RT.Inv (RT.step s e) := by
  obtain ⟨h0, h1, h2, h3⟩ := h
  cases e with
  | userAudio c =>
    simp only [RT.step, RT.handleUserAudio]
    split
    · exact ⟨h0, h1, h2, h3⟩
    · rename_i hT
      refine ⟨fun hl => absurd hl hT, fun hw => ?_, fun hp => h2 hp, fun hc => h3 hc⟩
      exact absurd hw (by simp [RT.stopSilenceTimer])
  | commit o =>
    show RT.Inv (RT.commitUserAudio s o)
    by_cases hT : s.isTerminating = true
    · have hid : RT.commitUserAudio s o = s := by
        unfold RT.commitUserAudio
        rw [if_pos hT]
      rw [hid]
      exact ⟨h0, h1, h2, h3⟩
    · have hx := rt_extends_commit s o
      refine ⟨?_, ?_, ?_, ?_⟩
      · intro hl
        rw [rt_commit_isTerminating] at hl
        exact absurd hl hT
      · intro hw
        rw [rt_commit_hasWarned] at hw
        exact rt_extends_nudgeSpoken hx (h1 hw)
      · intro hp
        rcases rt_commit_pending s o with hq | hq
        · rw [hq] at hp
          exact rt_extends_nudgeSpoken hx (h2 hp)
        · rw [hq] at hp
          exact absurd hp (by decide)
      · intro hc
        exact rt_extends_nudgeSpoken hx (h3 (rt_extends_callEnded hx hc))
  | silenceFire k =>
    simp only [RT.step, RT.fireSilenceTimer]
    split
    · exact ⟨h0, h1, h2, h3⟩
    · rename_i ms hms
      have hT : s.isTerminating = false := by
        cases hb : s.isTerminating
        · rfl
        · rw [(h0 hb).1] at hms
          exact Option.noConfusion hms
      simp only [RT.silenceTimerBody]
      split
      · rename_i hwF
        have hwF' : s.hasWarnedSilence = false := hwF
        set nudges := if (RT.stopSilenceTimer s).phase = Phase.INTRO ∨
            (RT.stopSilenceTimer s).phase = Phase.SMALL_TALK
          then RT.nudgesGreetingPhase else RT.nudgesInterviewPhase with hnud
        have hnmem : nudges.getD (k % nudges.length) "" ∈
            RT.nudgesGreetingPhase ++ RT.nudgesInterviewPhase := by
          rw [hnud]
          split
          · exact List.mem_append_left _ (rt_getD_mod_mem _ (by decide) k)
          · exact List.mem_append_right _ (rt_getD_mod_mem _ (by decide) k)
        have htr := rt_speak_transcript_eq
          { RT.stopSilenceTimer s with hasWarnedSilence := true }
          (nudges.getD (k % nudges.length) "") (by simpa [RT.stopSilenceTimer] using hT)
        refine ⟨?_, ?_, ?_, ?_⟩
        · intro hl
          have : s.isTerminating = true := by
            simpa [RT.startSilenceTimer, RT.stopSilenceTimer] using hl
          rw [hT] at this
          exact Bool.noConfusion this
        · intro _
          refine ⟨nudges.getD (k % nudges.length) "", hnmem, ?_⟩
          show _ ∈ (RT.startSilenceTimer _ 20000).transcript
          rw [RT.startSilenceTimer, htr]
          simp [RT.stopSilenceTimer]
        · intro hp
          have hp' : s.pendingTermination = some RT.reasonSilence := by
            simpa [RT.startSilenceTimer, RT.stopSilenceTimer] using hp
          refine rt_nudgeSpoken_append s [(Speaker.assistant, nudges.getD (k % nudges.length) "")]
            (h2 hp') _ ?_
          show (RT.startSilenceTimer _ 20000).transcript = _
          rw [RT.startSilenceTimer, htr]
          simp [RT.stopSilenceTimer]
        · intro hc
          have hcl := rt_speak_clientSent_eq
            { RT.stopSilenceTimer s with hasWarnedSilence := true }
            (nudges.getD (k % nudges.length) "") (by simpa [RT.stopSilenceTimer] using hT)
          have hc' : ClientMsg.callEnded RT.reasonSilence ∈ s.clientSent := by
            have : ClientMsg.callEnded RT.reasonSilence ∈
                (RT.startSilenceTimer (RT.speak { RT.stopSilenceTimer s with hasWarnedSilence := true }
                  (nudges.getD (k % nudges.length) "")) 20000).clientSent := hc
            rw [RT.startSilenceTimer] at this
            simp only at this
            rw [hcl] at this
            simp [RT.stopSilenceTimer] at this
            exact this
          refine rt_nudgeSpoken_append s [(Speaker.assistant, nudges.getD (k % nudges.length) "")]
            (h3 hc') _ ?_
          show (RT.startSilenceTimer _ 20000).transcript = _
          rw [RT.startSilenceTimer, htr]
          simp [RT.stopSilenceTimer]
      · rename_i hwT
        have hwT' : s.hasWarnedSilence = true := by
          revert hwT
          simp [RT.stopSilenceTimer]
        have hnudge := h1 hwT'
        have htr := rt_speak_transcript_eq (RT.stopSilenceTimer s) RT.silenceGoodbye
          (by simpa [RT.stopSilenceTimer] using hT)
        have hcl := rt_speak_clientSent_eq (RT.stopSilenceTimer s) RT.silenceGoodbye
          (by simpa [RT.stopSilenceTimer] using hT)
        refine ⟨?_, ?_, ?_, ?_⟩
        · intro hl
          have : s.isTerminating = true := by simpa [RT.stopSilenceTimer] using hl
          rw [hT] at this
          exact Bool.noConfusion this
        · intro _
          refine rt_nudgeSpoken_append s [(Speaker.assistant, RT.silenceGoodbye)] hnudge _ ?_
          show (RT.speak (RT.stopSilenceTimer s) RT.silenceGoodbye).transcript = _
          rw [htr]
          simp [RT.stopSilenceTimer]
        · intro _
          refine rt_nudgeSpoken_append s [(Speaker.assistant, RT.silenceGoodbye)] hnudge _ ?_
          show (RT.speak (RT.stopSilenceTimer s) RT.silenceGoodbye).transcript = _
          rw [htr]
          simp [RT.stopSilenceTimer]
        · intro hc
          have hc' : ClientMsg.callEnded RT.reasonSilence ∈ s.clientSent := by
            have : ClientMsg.callEnded RT.reasonSilence ∈
                (RT.speak (RT.stopSilenceTimer s) RT.silenceGoodbye).clientSent := hc
            rw [hcl] at this
            simp [RT.stopSilenceTimer] at this
            exact this
          refine rt_nudgeSpoken_append s [(Speaker.assistant, RT.silenceGoodbye)] (h3 hc') _ ?_
          show (RT.speak (RT.stopSilenceTimer s) RT.silenceGoodbye).transcript = _
          rw [htr]
          simp [RT.stopSilenceTimer]
  | termFire =>
    simp only [RT.step, RT.fireTermTimer]
    split
    · exact ⟨h0, h1, h2, h3⟩
    · rename_i r hr
      by_cases hT : s.isTerminating = true
      · rw [(h0 hT).2] at hr
        exact Option.noConfusion hr
      · simp only [RT.terminateSession]
        split
        · rename_i hg
          exact absurd hg hT
        · split
          · refine ⟨fun _ => ⟨rfl, rfl⟩, ?_, ?_, ?_⟩
            · intro hw
              exact h1 hw
            · intro hp
              exact Option.noConfusion hp
            · intro hc
              simp only [RT.stopSilenceTimer, RT.send] at hc
              rcases List.mem_append.mp hc with hcs | hcs
              · exact h3 hcs
              · have : RT.reasonSilence = r := by
                  cases hcs with
                  | head => rfl
                  | tail _ hx => exact absurd hx (List.not_mem_nil _)
                rw [← this] at hr
                exact h2 hr
          · refine ⟨fun _ => ⟨rfl, rfl⟩, ?_, ?_, ?_⟩
            · intro hw
              exact h1 hw
            · intro hp
              exact Option.noConfusion hp
            · intro hc
              exact h3 hc
  | closeFire =>
    simp only [RT.step, RT.fireCloseTimer]
    split
    · split
      · exact ⟨fun hl => h0 hl, fun hw => h1 hw, fun hp => h2 hp, fun hc => h3 hc⟩
      · exact ⟨fun hl => h0 hl, fun hw => h1 hw, fun hp => h2 hp, fun hc => h3 hc⟩
    · exact ⟨h0, h1, h2, h3⟩

theorem rt_inv_run (s : RT.State) (evs : List RT.Event) (h : RT.Inv s) :
    RT.Inv (RT.run s evs) := by
  induction evs generalizing s with
  | nil => exact h
  | cons e rest ih => exact ih (RT.step s e) (rt_inv_step s e h)

theorem rt_inv_init (q : List String) (role comp jd : String) :
    RT.Inv (RT.init q role comp jd) := by
  have hT : (RT.initState q role comp jd).isTerminating = false := rfl
  refine ⟨?_, ?_, ?_, ?_⟩
  · intro hl
    have : (RT.init q role comp jd).isTerminating = false := by
      simp [RT.init, RT.handleIntro, RT.initState]
    rw [this] at hl
    exact Bool.noConfusion hl
  · intro hw
    have : (RT.init q role comp jd).hasWarnedSilence = false := by
      simp [RT.init, RT.handleIntro, RT.initState]
    rw [this] at hw
    exact Bool.noConfusion hw
  · intro hp
    have : (RT.init q role comp jd).pendingTermination = none := by
      simp [RT.init, RT.handleIntro, RT.initState]
    rw [this] at hp
    exact Option.noConfusion hp
  · intro hc
    have : (RT.init q role comp jd).clientSent =
        [ClientMsg.aiText (RT.greeting role comp), ClientMsg.aiAudioChunk] := by
      simp [RT.init, RT.handleIntro]
      rw [rt_speak_clientSent_eq _ _ hT]
      rfl
    rw [this] at hc
    simp at hc

theorem ors_start_connected (s : ORS.State) :
    (ORS.startSilenceTimer s).isOpenAIConnected = s.isOpenAIConnected := by
  simp only [ORS.startSilenceTimer, ORS.clearSilenceTimerKeepStage]
  split <;> rfl

theorem ors_start_armed_connected (s : ORS.State)
    (h : (ORS.startSilenceTimer s).silenceTimeout ≠ none) :
    s.isOpenAIConnected = true := by
  revert h
  simp only [ORS.startSilenceTimer, ORS.clearSilenceTimerKeepStage]
  split
  · intro h
    exact absurd rfl h
  · rename_i hg
    intro _
    cases hb : s.isOpenAIConnected
    · exact absurd (Or.inr hb) hg
    · rfl

theorem ors_start_stage (s : ORS.State) :
    (ORS.startSilenceTimer s).silenceStage = s.silenceStage := by
  simp only [ORS.startSilenceTimer, ORS.clearSilenceTimerKeepStage]
  split <;> rfl

theorem ors_start_upstream (s : ORS.State) :
    (ORS.startSilenceTimer s).upstreamSent = s.upstreamSent := by
  simp only [ORS.startSilenceTimer, ORS.clearSilenceTimerKeepStage]
  split <;> rfl

theorem ors_start_removed (s : ORS.State) :
    (ORS.startSilenceTimer s).removedFromRegistry = s.removedFromRegistry := by
  simp only [ORS.startSilenceTimer, ORS.clearSilenceTimerKeepStage]
  split <;> rfl

theorem ors_inv_timeout (s : ORS.State) (hconn : s.isOpenAIConnected = true)
    (h : ORS.WatchdogInv s) : ORS.WatchdogInv (ORS.handleSilenceTimeout s) := by
  obtain ⟨h0, h1, h2, h3⟩ := h
  simp only [ORS.handleSilenceTimeout]
  split
  · rename_i hs0
    refine ⟨?_, ?_, ?_, ?_⟩
    · intro _
      rw [ors_start_connected]
      simp [ORS.forceAiResponse, ORS.injectSystemMessage, ORS.sendUp, hconn]
    · intro _
      rw [ors_start_upstream]
      simp [ORS.forceAiResponse, ORS.injectSystemMessage, ORS.sendUp, hconn,
        List.mem_append]
    · intro hst
      rw [ors_start_stage] at hst
      simp at hst
    · intro hrm
      rw [ors_start_removed] at hrm
      rw [ors_start_upstream]
      simp only [ORS.forceAiResponse, ORS.injectSystemMessage, ORS.sendUp, hconn] at hrm ⊢
      simp only [Bool.true_eq_false, if_false] at hrm ⊢
      have h3' := h3 hrm
      constructor
      · simp [List.mem_append]
      · simp [List.mem_append]
        exact Or.inl h3'.2
  · split
    · rename_i hsne hs1
      have hn := h1 (by omega)
      refine ⟨?_, ?_, ?_, ?_⟩
      · intro _
        rw [ors_start_connected]
        simp [ORS.forceAiResponse, ORS.injectSystemMessage, ORS.sendUp, hconn]
      · intro _
        rw [ors_start_upstream]
        simp only [ORS.forceAiResponse, ORS.injectSystemMessage, ORS.sendUp, hconn]
        simp only [Bool.true_eq_false, if_false]
        simp [List.mem_append]
        exact Or.inl hn
      · intro _
        rw [ors_start_upstream]
        simp [ORS.forceAiResponse, ORS.injectSystemMessage, ORS.sendUp, hconn,
          List.mem_append]
      · intro hrm
        rw [ors_start_removed] at hrm
        rw [ors_start_upstream]
        simp only [ORS.forceAiResponse, ORS.injectSystemMessage, ORS.sendUp, hconn] at hrm ⊢
        simp only [Bool.true_eq_false, if_false] at hrm ⊢
        have h3' := h3 hrm
        constructor
        · simp [List.mem_append]
          exact Or.inl h3'.1
        · simp [List.mem_append]
    · split
      · rename_i hsne hsne1 hs2
        refine ⟨?_, ?_, ?_, ?_⟩
        · intro _
          exact hconn
        · intro _
          exact h1 (by omega)
        · intro _
          exact h2 hs2
        · intro _
          exact ⟨h1 (by omega), h2 hs2⟩
      · exact ⟨fun ht => h0 ht, h1, h2, h3⟩

theorem ors_inv_step (s : ORS.State) (e : ORS.Event) (h : ORS.WatchdogInv s) :
    ORS.WatchdogInv (ORS.step s e) := by
  obtain ⟨h0, h1, h2, h3⟩ := h
  cases e with
  | socketOpen =>
    refine ⟨fun _ => rfl, ?_, ?_, ?_⟩
    · intro hst
      exact List.mem_append_left _ (h1 hst)
    · intro hst
      exact List.mem_append_left _ (h2 hst)
    · intro hrm
      exact ⟨List.mem_append_left _ (h3 hrm).1, List.mem_append_left _ (h3 hrm).2⟩
  | sessionUpdated =>
    simp only [ORS.step]
    split
    · simp only [ORS.triggerGreeting]
      split
      · exact ⟨h0, h1, h2, h3⟩
      · refine ⟨fun ht => h0 ht, ?_, ?_, ?_⟩
        · intro hst
          simp only [ORS.sendUp]
          refine List.mem_append_left _ (List.mem_append_left _ (List.mem_append_left _ ?_))
          exact h1 hst
        · intro hst
          simp only [ORS.sendUp]
          refine List.mem_append_left _ (List.mem_append_left _ (List.mem_append_left _ ?_))
          exact h2 hst
        · intro hrm
          have h3' := h3 hrm
          constructor
          · simp only [ORS.sendUp]
            exact List.mem_append_left _ (List.mem_append_left _ (List.mem_append_left _ h3'.1))
          · simp only [ORS.sendUp]
            exact List.mem_append_left _ (List.mem_append_left _ (List.mem_append_left _ h3'.2))
    · exact ⟨h0, h1, h2, h3⟩
  | outputItemAdded =>
    simp only [ORS.step, ORS.onOutputItemAdded]
    split
    · exact ⟨h0, h1, h2, h3⟩
    · refine ⟨fun ht => h0 ht, ?_, ?_, ?_⟩
      · intro hst
        exact List.mem_append_left _ (h1 hst)
      · intro hst
        exact List.mem_append_left _ (h2 hst)
      · intro hrm
        exact ⟨List.mem_append_left _ (h3 hrm).1, List.mem_append_left _ (h3 hrm).2⟩
  | responseCreated =>
    exact ⟨fun ht => h0 ht, h1, h2, h3⟩
  | audioDelta d =>
    exact ⟨fun ht => h0 ht, h1, h2, h3⟩
  | transcriptDelta d =>
    exact ⟨fun ht => h0 ht, h1, h2, h3⟩
  | speechStarted =>
    simp only [ORS.step, ORS.onSpeechStarted, ORS.clearSilenceTimer, ORS.sendClient]
    split
    · refine ⟨fun ht => absurd rfl ht, ?_, ?_, fun hrm => h3 hrm⟩
      · intro hst
        simp at hst
      · intro hst
        simp at hst
    · refine ⟨fun ht => absurd rfl ht, ?_, ?_, fun hrm => h3 hrm⟩
      · intro hst
        simp at hst
      · intro hst
        simp at hst
  | responseDone =>
    simp only [ORS.step, ORS.onResponseDone]
    split
    · refine ⟨?_, ?_, ?_, ?_⟩
      · intro ht
        rw [ors_start_connected]
        simp only [ORS.sendSessionUpdate, ORS.sendUp, ORS.sendClient]
        exact ors_start_armed_connected _ ht ▸ rfl
      · intro hst
        rw [ors_start_stage] at hst
        rw [ors_start_upstream]
        simp only [ORS.sendSessionUpdate, ORS.sendUp, ORS.sendClient] at hst ⊢
        exact List.mem_append_left _ (h1 hst)
      · intro hst
        rw [ors_start_stage] at hst
        rw [ors_start_upstream]
        simp only [ORS.sendSessionUpdate, ORS.sendUp, ORS.sendClient] at hst ⊢
        exact List.mem_append_left _ (h2 hst)
      · intro hrm
        rw [ors_start_removed] at hrm
        simp only [ORS.sendSessionUpdate, ORS.sendUp, ORS.sendClient] at hrm
        have h3' := h3 hrm
        rw [ors_start_upstream]
        simp only [ORS.sendSessionUpdate, ORS.sendUp, ORS.sendClient]
        exact ⟨List.mem_append_left _ h3'.1, List.mem_append_left _ h3'.2⟩
    · refine ⟨?_, ?_, ?_, ?_⟩
      · intro ht
        rw [ors_start_connected]
        exact ors_start_armed_connected _ ht ▸ rfl
      · intro hst
        rw [ors_start_stage] at hst
        rw [ors_start_upstream]
        exact h1 hst
      · intro hst
        rw [ors_start_stage] at hst
        rw [ors_start_upstream]
        exact h2 hst
      · intro hrm
        rw [ors_start_removed] at hrm
        rw [ors_start_upstream]
        exact h3 hrm
  | transcriptionCompleted itemId t =>
    simp only [ORS.step, ORS.onTranscriptionCompleted]
    split
    · refine ⟨fun ht => h0 ht, ?_, ?_, ?_⟩
      · intro hst
        exact List.mem_append_left _ (h1 hst)
      · intro hst
        exact List.mem_append_left _ (h2 hst)
      · intro hrm
        exact ⟨List.mem_append_left _ (h3 hrm).1, List.mem_append_left _ (h3 hrm).2⟩
    · split
      · exact ⟨fun ht => h0 ht, h1, h2, h3⟩
      · exact ⟨fun ht => h0 ht, h1, h2, h3⟩
  | aiTranscriptDone t =>
    simp only [ORS.step]
    split
    · exact ⟨fun ht => h0 ht, h1, h2, h3⟩
    · exact ⟨fun ht => h0 ht, h1, h2, h3⟩
  | silenceFire =>
    simp only [ORS.step, ORS.fireSilenceTimer]
    split
    · exact ⟨h0, h1, h2, h3⟩
    · rename_i ms hms
      have hconn : s.isOpenAIConnected = true := h0 (by rw [hms]; simp)
      exact ors_inv_timeout _ hconn ⟨fun _ => hconn, h1, h2, h3⟩

theorem ors_inv_run (s : ORS.State) (evs : List ORS.Event) (h : ORS.WatchdogInv s) :
    ORS.WatchdogInv (ORS.run s evs) := by
  induction evs generalizing s with
  | nil => exact h
  | cons e rest ih => exact ih (ORS.step s e) (ors_inv_step s e h)

theorem ors_inv_init : ORS.WatchdogInv ORS.init := by
  refine ⟨?_, ?_, ?_, ?_⟩
  · intro ht
    exact absurd rfl ht
  · intro hst
    exact absurd hst (by decide)
  · intro hst
    exact absurd hst (by decide)
  · intro hrm
    exact absurd hrm (by decide)

/-- C4. Silence monotonic escalation: in the RealtimeSession watchdog a
silence-triggered termination (a scheduled or delivered Silence Timeout)
can only occur in a run in which a level-1 nudge utterance was spoken
and persisted first; in the staged adapter watchdog a timeout at stage 0
injects the nudge and moves to stage 1, a timeout at stage 1 injects the
final warning and moves to stage 2, and the session is only torn down by
a timeout at stage 2 - the watchdog never skips from level 0 directly to
termination: every run of the adapter that ends removed from the
registry has both the nudge and the warning injected upstream. -/
theorem C4_silence_monotonic_escalation :
    (∀ (q : List String) (role comp jd : String) (evs : List RT.Event),
      ((RT.run (RT.init q role comp jd) evs).pendingTermination = some RT.reasonSilence →
        RT.nudgeSpoken (RT.run (RT.init q role comp jd) evs)) ∧
      (ClientMsg.callEnded RT.reasonSilence ∈ (RT.run (RT.init q role comp jd) evs).clientSent →
        RT.nudgeSpoken (RT.run (RT.init q role comp jd) evs)))
    ∧ (∀ s : ORS.State,
        (s.silenceStage = 0 →
          (ORS.handleSilenceTimeout s).silenceStage = 1 ∧
          (ORS.handleSilenceTimeout s).removedFromRegistry = s.removedFromRegistry ∧
          (ORS.handleSilenceTimeout s).closed = s.closed ∧
          (s.isOpenAIConnected = true →
            ORS.UpMsg.itemCreate ORS.silenceNudgeMsg ∈ (ORS.handleSilenceTimeout s).upstreamSent)) ∧
        (s.silenceStage = 1 →
          (ORS.handleSilenceTimeout s).silenceStage = 2 ∧
          (ORS.handleSilenceTimeout s).removedFromRegistry = s.removedFromRegistry ∧
          (ORS.handleSilenceTimeout s).closed = s.closed ∧
          (s.isOpenAIConnected = true →
            ORS.UpMsg.itemCreate ORS.silenceWarnMsg ∈ (ORS.handleSilenceTimeout s).upstreamSent)) ∧
        (s.silenceStage ≠ 2 →
          (ORS.handleSilenceTimeout s).removedFromRegistry = s.removedFromRegistry ∧
          (ORS.handleSilenceTimeout s).closed = s.closed))
    ∧ (∀ evs : List ORS.Event,
        (ORS.run ORS.init evs).removedFromRegistry = true →
          ORS.UpMsg.itemCreate ORS.silenceNudgeMsg ∈ (ORS.run ORS.init evs).upstreamSent ∧
          ORS.UpMsg.itemCreate ORS.silenceWarnMsg ∈ (ORS.run ORS.init evs).upstreamSent) := by
  refine ⟨?_, ?_, ?_⟩
  · intro q role comp jd evs
    have h := rt_inv_run (RT.init q role comp jd) evs (rt_inv_init q role comp jd)
    exact ⟨h.2.2.1, h.2.2.2⟩
  · intro s
    refine ⟨?_, ?_, ?_⟩
    · intro h0
      simp only [ORS.handleSilenceTimeout]
      rw [if_pos h0]
      refine ⟨?_, ?_, ?_, ?_⟩
      · simp only [ORS.startSilenceTimer, ORS.clearSilenceTimerKeepStage, ORS.forceAiResponse,
          ORS.injectSystemMessage, ORS.sendUp]
        repeat' split
        all_goals rfl
      · simp only [ORS.startSilenceTimer, ORS.clearSilenceTimerKeepStage, ORS.forceAiResponse,
          ORS.injectSystemMessage, ORS.sendUp]
        repeat' split
        all_goals rfl
      · simp only [ORS.startSilenceTimer, ORS.clearSilenceTimerKeepStage, ORS.forceAiResponse,
          ORS.injectSystemMessage, ORS.sendUp]
        repeat' split
        all_goals rfl
      · intro hconn
        simp only [ORS.startSilenceTimer, ORS.clearSilenceTimerKeepStage, ORS.forceAiResponse,
          ORS.injectSystemMessage, ORS.sendUp, hconn]
        repeat' split
        all_goals simp_all
    · intro h1
      simp only [ORS.handleSilenceTimeout]
      rw [if_neg (by rw [h1]; exact one_ne_zero), if_pos h1]
      refine ⟨?_, ?_, ?_, ?_⟩
      · simp only [ORS.startSilenceTimer, ORS.clearSilenceTimerKeepStage, ORS.forceAiResponse,
          ORS.injectSystemMessage, ORS.sendUp]
        repeat' split
        all_goals rfl
      · simp only [ORS.startSilenceTimer, ORS.clearSilenceTimerKeepStage, ORS.forceAiResponse,
          ORS.injectSystemMessage, ORS.sendUp]
        repeat' split
        all_goals rfl
      · simp only [ORS.startSilenceTimer, ORS.clearSilenceTimerKeepStage, ORS.forceAiResponse,
          ORS.injectSystemMessage, ORS.sendUp]
        repeat' split
        all_goals rfl
      · intro hconn
        simp only [ORS.startSilenceTimer, ORS.clearSilenceTimerKeepStage, ORS.forceAiResponse,
          ORS.injectSystemMessage, ORS.sendUp, hconn]
        repeat' split
        all_goals simp_all
    · intro hne
      simp only [ORS.handleSilenceTimeout]
      by_cases h0 : s.silenceStage = 0
      · rw [if_pos h0]
        constructor
        · simp only [ORS.startSilenceTimer, ORS.clearSilenceTimerKeepStage, ORS.forceAiResponse,
            ORS.injectSystemMessage, ORS.sendUp]
          repeat' split
          all_goals rfl
        · simp only [ORS.startSilenceTimer, ORS.clearSilenceTimerKeepStage, ORS.forceAiResponse,
            ORS.injectSystemMessage, ORS.sendUp]
          repeat' split
          all_goals rfl
      · rw [if_neg h0]
        by_cases h1 : s.silenceStage = 1
        · rw [if_pos h1]
          constructor
          · simp only [ORS.startSilenceTimer, ORS.clearSilenceTimerKeepStage, ORS.forceAiResponse,
              ORS.injectSystemMessage, ORS.sendUp]
            repeat' split
            all_goals rfl
          · simp only [ORS.startSilenceTimer, ORS.clearSilenceTimerKeepStage, ORS.forceAiResponse,
              ORS.injectSystemMessage, ORS.sendUp]
            repeat' split
            all_goals rfl
        · rw [if_neg h1, if_neg hne]
          exact ⟨rfl, rfl⟩
  · intro evs hrm
    exact (ors_inv_run ORS.init evs ors_inv_init).2.2.2 hrm

/-- Witness for C4 at concrete inputs: a run whose second silence
timeout schedules the Silence Timeout termination indeed has a nudge in
its transcript; a connected stage-0 adapter state moves to stage 1
with the nudge injected; and a concrete adapter run that is torn down
by three consecutive timeouts has both the nudge and the warning
injected upstream. -/
theorem C4_witness :
    RT.nudgeSpoken
      (RT.run (RT.init ["Q1"] "re" "co" "jd") [RT.Event.silenceFire 0, RT.Event.silenceFire 0])
    ∧ (ORS.handleSilenceTimeout
        { ORS.init with isOpenAIConnected := true, isGreetingPhase := false }).silenceStage = 1
    ∧ ORS.UpMsg.itemCreate ORS.silenceNudgeMsg ∈
        (ORS.handleSilenceTimeout
          { ORS.init with isOpenAIConnected := true, isGreetingPhase := false }).upstreamSent
    ∧ (ORS.run ORS.init [ORS.Event.socketOpen, ORS.Event.responseDone,
        ORS.Event.silenceFire, ORS.Event.silenceFire, ORS.Event.silenceFire]).removedFromRegistry
        = true
    ∧ ORS.UpMsg.itemCreate ORS.silenceNudgeMsg ∈
        (ORS.run ORS.init [ORS.Event.socketOpen, ORS.Event.responseDone,
          ORS.Event.silenceFire, ORS.Event.silenceFire, ORS.Event.silenceFire]).upstreamSent
    ∧ ORS.UpMsg.itemCreate ORS.silenceWarnMsg ∈
        (ORS.run ORS.init [ORS.Event.socketOpen, ORS.Event.responseDone,
          ORS.Event.silenceFire, ORS.Event.silenceFire, ORS.Event.silenceFire]).upstreamSent := by
  refine ⟨?_, ?_, ?_, by decide, ?_, ?_⟩
  · exact (C4_silence_monotonic_escalation.1 ["Q1"] "re" "co" "jd"
      [RT.Event.silenceFire 0, RT.Event.silenceFire 0]).1 (by decide)
  · exact ((C4_silence_monotonic_escalation.2.1
      { ORS.init with isOpenAIConnected := true, isGreetingPhase := false }).1 (by decide)).1
  · exact ((C4_silence_monotonic_escalation.2.1
      { ORS.init with isOpenAIConnected := true, isGreetingPhase := false }).1 (by decide)).2.2.2
      (by decide)
  · exact (C4_silence_monotonic_escalation.2.2 [ORS.Event.socketOpen, ORS.Event.responseDone,
      ORS.Event.silenceFire, ORS.Event.silenceFire, ORS.Event.silenceFire] (by decide)).1
  · exact (C4_silence_monotonic_escalation.2.2 [ORS.Event.socketOpen, ORS.Event.responseDone,
      ORS.Event.silenceFire, ORS.Event.silenceFire, ORS.Event.silenceFire] (by decide)).2

theorem rt_terminate_of_terminating (s : RT.State) (r : String) (h : s.isTerminating = true) :
    RT.terminateSession s r = s := by
  unfold RT.terminateSession
  rw [if_pos h]

theorem rt_terminate_isTerminating (s : RT.State) (r : String) :
    (RT.terminateSession s r).isTerminating = true := by
  simp only [RT.terminateSession]
  split
  · assumption
  · split <;> rfl

theorem rt_terminate_closeCount (s : RT.State) (r : String) :
    (RT.terminateSession s r).closeCount = s.closeCount := by
  simp only [RT.terminateSession]
  split
  · rfl
  · split <;> rfl

theorem rt_terminate_wsOpen (s : RT.State) (r : String) :
    (RT.terminateSession s r).wsOpen = s.wsOpen := by
  simp only [RT.terminateSession]
  split
  · rfl
  · split <;> rfl

theorem rt_run_latch (s : RT.State) (evs : List RT.Event) (h : s.isTerminating = true) :
    (RT.run s evs).isTerminating = true := by
  induction evs generalizing s with
  | nil => exact h
  | cons e rest ih =>
    apply ih
    have hm := rt_step_latch_mono s e
    rw [h] at hm
    exact le_antisymm (Bool.le_true _) hm

theorem rt_countCallEnded_terminate (s : RT.State) (r : String)
    (hT : s.isTerminating = false) (hw : s.wsOpen = true) :
    RT.countCallEnded (RT.terminateSession s r) = RT.countCallEnded s + 1 := by
  simp only [RT.terminateSession]
  split
  · rename_i hg
    rw [hT] at hg
    exact Bool.noConfusion hg
  · split
    · simp [RT.countCallEnded, RT.send, RT.stopSilenceTimer, List.filter_append]
    · rename_i hg
      simp only [RT.stopSilenceTimer] at hg
      exact absurd hw hg

theorem rt_commit_closeCount (s : RT.State) (o : RT.CommitOracle) :
    (RT.commitUserAudio s o).closeCount = s.closeCount := by
  simp only [RT.commitUserAudio, RT.dispatchTurn, RT.handleSmallTalkResponse,
    RT.handleInterviewResponse, RT.handleQandAResponse, RT.moveToNextQuestion,
    RT.askCurrentQuestion, RT.saveTranscript, RT.send, RT.startSilenceTimer, RT.stopSilenceTimer]
  repeat' split
  all_goals simp

theorem rt_commit_wsOpen (s : RT.State) (o : RT.CommitOracle) :
    (RT.commitUserAudio s o).wsOpen = s.wsOpen := by
  simp only [RT.commitUserAudio, RT.dispatchTurn, RT.handleSmallTalkResponse,
    RT.handleInterviewResponse, RT.handleQandAResponse, RT.moveToNextQuestion,
    RT.askCurrentQuestion, RT.saveTranscript, RT.send, RT.startSilenceTimer, RT.stopSilenceTimer]
  repeat' split
  all_goals simp

theorem rt_silenceBody_closeCount (s : RT.State) (k : Nat) :
    (RT.silenceTimerBody s k).closeCount = s.closeCount := by
  simp only [RT.silenceTimerBody]
  repeat' split
  all_goals simp [RT.startSilenceTimer]

theorem rt_silenceBody_wsOpen (s : RT.State) (k : Nat) :
    (RT.silenceTimerBody s k).wsOpen = s.wsOpen := by
  simp only [RT.silenceTimerBody]
  repeat' split
  all_goals simp [RT.startSilenceTimer]

theorem rt_step_closeInv (s : RT.State) (e : RT.Event) (h : RT.CloseInv s) :
    RT.CloseInv (RT.step s e) := by
  cases e with
  | userAudio c =>
    simp only [RT.step, RT.handleUserAudio]
    split
    · exact h
    · exact h
  | commit o =>
    show RT.CloseInv (RT.commitUserAudio s o)
    rcases h with h | h
    · left
      rw [rt_commit_closeCount]
      exact h
    · right
      exact ⟨by rw [rt_commit_closeCount]; exact h.1, by rw [rt_commit_wsOpen]; exact h.2⟩
  | silenceFire k =>
    simp only [RT.step, RT.fireSilenceTimer]
    split
    · exact h
    · rcases h with h | h
      · left
        rw [rt_silenceBody_closeCount]
        exact h
      · right
        refine ⟨by rw [rt_silenceBody_closeCount]; exact h.1, ?_⟩
        rw [rt_silenceBody_wsOpen]
        simpa [RT.stopSilenceTimer] using h.2
  | termFire =>
    simp only [RT.step, RT.fireTermTimer]
    split
    · exact h
    · rcases h with h | h
      · left
        rw [rt_terminate_closeCount]
        exact h
      · right
        refine ⟨by rw [rt_terminate_closeCount]; exact h.1, ?_⟩
        rw [rt_terminate_wsOpen]
        exact h.2
  | closeFire =>
    simp only [RT.step, RT.fireCloseTimer]
    split
    · split
      · rename_i hsch hopen
        rcases h with h | h
        · right
          exact ⟨by simp [h], rfl⟩
        · rw [h.2] at hopen
          exact Bool.noConfusion hopen
      · rcases h with h | h
        · left
          exact h
        · right
          exact h
    · exact h

theorem rt_closeInv_run (s : RT.State) (evs : List RT.Event) (h : RT.CloseInv s) :
    RT.CloseInv (RT.run s evs) := by
  induction evs generalizing s with
  | nil => exact h
  | cons e rest ih => exact ih (RT.step s e) (rt_step_closeInv s e h)

/-- C5. Idempotent termination: terminateSession on an already
terminating session is the identity, and (via the one-way latch, which
every later event preserves) calling terminateSession a second time
after any interleaving of further events leaves the state unchanged;
a first call on a live open session sends exactly one more call_ended
event, and the client socket is closed at most once over any
continuation of the run. -/
theorem C5_idempotent_termination :
    (∀ (s : RT.State) (r r2 : String) (evs : List RT.Event),
      RT.terminateSession (RT.run (RT.terminateSession s r) evs) r2 =
        RT.run (RT.terminateSession s r) evs)
    ∧ (∀ (s : RT.State) (r : String), s.isTerminating = true → RT.terminateSession s r = s)
    ∧ (∀ (s : RT.State) (r : String), s.isTerminating = false → s.wsOpen = true →
        RT.countCallEnded (RT.terminateSession s r) = RT.countCallEnded s + 1)
    ∧ (∀ (s : RT.State) (r : String) (evs : List RT.Event), s.closeCount = 0 →
        (RT.run (RT.terminateSession s r) evs).closeCount ≤ 1) := by
  refine ⟨?_, rt_terminate_of_terminating, rt_countCallEnded_terminate, ?_⟩
  · intro s r r2 evs
    exact rt_terminate_of_terminating _ r2
      (rt_run_latch _ evs (rt_terminate_isTerminating s r))
  · intro s r evs hc
    have hK : RT.CloseInv (RT.terminateSession s r) := by
      left
      rw [rt_terminate_closeCount]
      exact hc
    rcases rt_closeInv_run _ evs hK with h | h
    · rw [h]
      exact Nat.zero_le 1
    · rw [h.1]

/-- Witness for C5 at concrete inputs. -/
theorem C5_witness :
    RT.terminateSession
        (RT.run (RT.terminateSession (RT.init ["Q1"] "re" "co" "jd") "a") [RT.Event.closeFire]) "b" =
      RT.run (RT.terminateSession (RT.init ["Q1"] "re" "co" "jd") "a") [RT.Event.closeFire]
    ∧ RT.terminateSession (RT.terminateSession (RT.init ["Q1"] "re" "co" "jd") "a") "b" =
        RT.terminateSession (RT.init ["Q1"] "re" "co" "jd") "a"
    ∧ RT.countCallEnded (RT.terminateSession (RT.init ["Q1"] "re" "co" "jd") "a") =
        RT.countCallEnded (RT.init ["Q1"] "re" "co" "jd") + 1
    ∧ (RT.run (RT.terminateSession (RT.init ["Q1"] "re" "co" "jd") "a") [RT.Event.closeFire]).closeCount ≤ 1 :=
  ⟨C5_idempotent_termination.1 (RT.init ["Q1"] "re" "co" "jd") "a" "b" [RT.Event.closeFire],
    C5_idempotent_termination.2.1 _ "b" (by decide),
    C5_idempotent_termination.2.2.1 (RT.init ["Q1"] "re" "co" "jd") "a" (by decide) (by decide),
    C5_idempotent_termination.2.2.2 (RT.init ["Q1"] "re" "co" "jd") "a" [RT.Event.closeFire] (by decide)⟩

/-- C10. Termination latch frame: in every reachable state with the
terminating latch set, handleUserAudio, commitUserAudio and speak
return the state unchanged, and no event changes the client message
stream, the transcript, or the audio buffer any further - the only
remaining effect is the already scheduled delayed socket close. -/
theorem C10_latch_silences_session :
    ∀ (q : List String) (role comp jd : String) (evs : List RT.Event),
      (RT.run (RT.init q role comp jd) evs).isTerminating = true →
      (∀ chunk, RT.handleUserAudio (RT.run (RT.init q role comp jd) evs) chunk =
        RT.run (RT.init q role comp jd) evs)
      ∧ (∀ o, RT.commitUserAudio (RT.run (RT.init q role comp jd) evs) o =
          RT.run (RT.init q role comp jd) evs)
      ∧ (∀ t, RT.speak (RT.run (RT.init q role comp jd) evs) t =
          RT.run (RT.init q role comp jd) evs)
      ∧ (∀ e, (RT.step (RT.run (RT.init q role comp jd) evs) e).clientSent =
            (RT.run (RT.init q role comp jd) evs).clientSent
          ∧ (RT.step (RT.run (RT.init q role comp jd) evs) e).transcript =
            (RT.run (RT.init q role comp jd) evs).transcript
          ∧ (RT.step (RT.run (RT.init q role comp jd) evs) e).audioBuffer =
            (RT.run (RT.init q role comp jd) evs).audioBuffer) := by
  intro q role comp jd evs hL
  have hinv := rt_inv_run (RT.init q role comp jd) evs (rt_inv_init q role comp jd)
  have hfrozen := hinv.1 hL
  have huser : ∀ chunk, RT.handleUserAudio (RT.run (RT.init q role comp jd) evs) chunk =
      RT.run (RT.init q role comp jd) evs := by
    intro chunk
    unfold RT.handleUserAudio
    rw [if_pos hL]
  have hcommit : ∀ o, RT.commitUserAudio (RT.run (RT.init q role comp jd) evs) o =
      RT.run (RT.init q role comp jd) evs := by
    intro o
    unfold RT.commitUserAudio
    rw [if_pos hL]
  refine ⟨huser, hcommit, ?_, ?_⟩
  · intro t
    exact rt_speak_of_terminating _ t hL
  · intro e
    cases e with
    | userAudio c =>
      rw [show RT.step (RT.run (RT.init q role comp jd) evs) (RT.Event.userAudio c) =
        RT.run (RT.init q role comp jd) evs from huser c]
      exact ⟨rfl, rfl, rfl⟩
    | commit o =>
      rw [show RT.step (RT.run (RT.init q role comp jd) evs) (RT.Event.commit o) =
        RT.run (RT.init q role comp jd) evs from hcommit o]
      exact ⟨rfl, rfl, rfl⟩
    | silenceFire k =>
      have : RT.step (RT.run (RT.init q role comp jd) evs) (RT.Event.silenceFire k) =
          RT.run (RT.init q role comp jd) evs := by
        simp only [RT.step, RT.fireSilenceTimer, hfrozen.1]
      rw [this]
      exact ⟨rfl, rfl, rfl⟩
    | termFire =>
      have : RT.step (RT.run (RT.init q role comp jd) evs) RT.Event.termFire =
          RT.run (RT.init q role comp jd) evs := by
        simp only [RT.step, RT.fireTermTimer, hfrozen.2]
      rw [this]
      exact ⟨rfl, rfl, rfl⟩
    | closeFire =>
      refine ⟨?_, ?_, ?_⟩
      all_goals simp only [RT.step, RT.fireCloseTimer]
      all_goals repeat' split
      all_goals rfl

/-- Witness for C10 at a concrete terminated run. -/
theorem C10_witness :
    (RT.run (RT.init ["Q1"] "re" "co" "jd")
      [RT.Event.silenceFire 0, RT.Event.silenceFire 0, RT.Event.termFire]).isTerminating = true
    ∧ (RT.handleUserAudio (RT.run (RT.init ["Q1"] "re" "co" "jd")
        [RT.Event.silenceFire 0, RT.Event.silenceFire 0, RT.Event.termFire]) "x" =
      RT.run (RT.init ["Q1"] "re" "co" "jd")
        [RT.Event.silenceFire 0, RT.Event.silenceFire 0, RT.Event.termFire]) := by
  constructor
  · decide
  · exact (C10_latch_silences_session ["Q1"] "re" "co" "jd"
      [RT.Event.silenceFire 0, RT.Event.silenceFire 0, RT.Event.termFire] (by decide)).1 "x"

/-! Frame lemmas for the RT2 machine. -/

@[simp] theorem rt2_speak_phase (s : RT2.State) (t : String) : (RT2.speak s t).phase = s.phase := by
  unfold RT2.speak
  split <;> rfl

@[simp] theorem rt2_speak_cursor (s : RT2.State) (t : String) :
    (RT2.speak s t).currentQuestionIndex = s.currentQuestionIndex := by
  unfold RT2.speak
  split <;> rfl

@[simp] theorem rt2_speak_questions (s : RT2.State) (t : String) :
    (RT2.speak s t).questions = s.questions := by
  unfold RT2.speak
  split <;> rfl

@[simp] theorem rt2_speak_isTerminating (s : RT2.State) (t : String) :
    (RT2.speak s t).isTerminating = s.isTerminating := by
  unfold RT2.speak
  split <;> rfl

@[simp] theorem rt2_speak_duration (s : RT2.State) (t : String) :
    (RT2.speak s t).sessionDurationMinutes = s.sessionDurationMinutes := by
  unfold RT2.speak
  split <;> rfl

@[simp] theorem rt2_speak_startTime (s : RT2.State) (t : String) :
    (RT2.speak s t).sessionStartTime = s.sessionStartTime := by
  unfold RT2.speak
  split <;> rfl

@[simp] theorem rt2_speak_hardLimitTimer (s : RT2.State) (t : String) :
    (RT2.speak s t).hardLimitTimer = s.hardLimitTimer := by
  unfold RT2.speak
  split <;> rfl

@[simp] theorem rt2_speak_pendingTermination (s : RT2.State) (t : String) :
    (RT2.speak s t).pendingTermination = s.pendingTermination := by
  unfold RT2.speak
  split <;> rfl

theorem rt2_speak_transcript_eq (s : RT2.State) (t : String) (hT : s.isTerminating = false) :
    (RT2.speak s t).transcript = s.transcript ++ [(Speaker.assistant, t)] := by
  unfold RT2.speak
  rw [if_neg (by simp [hT])]
  simp [RT2.stopSilenceTimer, RT2.saveTranscript, RT2.send]

@[simp] theorem rt2_askCurrentQuestion_phase (s : RT2.State) :
    (RT2.askCurrentQuestion s).phase = s.phase := by
  unfold RT2.askCurrentQuestion
  split <;> simp

@[simp] theorem rt2_askCurrentQuestion_cursor (s : RT2.State) :
    (RT2.askCurrentQuestion s).currentQuestionIndex = s.currentQuestionIndex := by
  unfold RT2.askCurrentQuestion
  split <;> simp

@[simp] theorem rt2_askCurrentQuestion_questions (s : RT2.State) :
    (RT2.askCurrentQuestion s).questions = s.questions := by
  unfold RT2.askCurrentQuestion
  split <;> simp

theorem rt2_moveToNextQuestion_cursor (s : RT2.State) (p : Option String) (b : String)
    (g : GptText) (now : Nat) :
    (RT2.moveToNextQuestion s p b g now).currentQuestionIndex = s.currentQuestionIndex + 1 := by
  simp only [RT2.moveToNextQuestion]
  repeat' split
  all_goals simp

theorem rt2_moveToNextQuestion_questions (s : RT2.State) (p : Option String) (b : String)
    (g : GptText) (now : Nat) :
    (RT2.moveToNextQuestion s p b g now).questions = s.questions := by
  simp only [RT2.moveToNextQuestion]
  repeat' split
  all_goals simp

theorem rt2_moveToNextQuestion_phase (s : RT2.State) (p : Option String) (b : String)
    (g : GptText) (now : Nat) :
    (RT2.moveToNextQuestion s p b g now).phase =
      if s.currentQuestionIndex + 1 < s.questions.length ∧ 180000 < RT2.remainingMs s now
      then s.phase else Phase.Q_AND_A := by
  simp only [RT2.moveToNextQuestion, RT2.remainingMs]
  split
  · repeat' split
    all_goals simp_all [RT2.remainingMs]
  · repeat' split
    all_goals simp_all [RT2.remainingMs]

theorem rt2_handleSmallTalkResponse_phase (s : RT2.State) (ev : GptEval) :
    (RT2.handleSmallTalkResponse s ev).phase = s.phase ∨
      ((RT2.handleSmallTalkResponse s ev).phase = Phase.INTERVIEW ∧
        (RT2.handleSmallTalkResponse s ev).currentQuestionIndex = s.currentQuestionIndex) := by
  simp only [RT2.handleSmallTalkResponse]
  repeat' split
  all_goals simp [RT2.startSilenceTimer]

theorem rt2_handleSmallTalkResponse_cursor (s : RT2.State) (ev : GptEval) :
    (RT2.handleSmallTalkResponse s ev).currentQuestionIndex = s.currentQuestionIndex := by
  simp only [RT2.handleSmallTalkResponse]
  repeat' split
  all_goals simp [RT2.startSilenceTimer]

theorem rt2_handleSmallTalkResponse_questions (s : RT2.State) (ev : GptEval) :
    (RT2.handleSmallTalkResponse s ev).questions = s.questions := by
  simp only [RT2.handleSmallTalkResponse]
  repeat' split
  all_goals simp [RT2.startSilenceTimer]

theorem rt2_handleInterviewResponse_shape (s : RT2.State) (t : String) (ev : GptEval)
    (g : GptText) (now : Nat) :
    ((RT2.handleInterviewResponse s t ev g now).phase = s.phase ∧
      (RT2.handleInterviewResponse s t ev g now).currentQuestionIndex = s.currentQuestionIndex) ∨
    ((RT2.handleInterviewResponse s t ev g now).currentQuestionIndex = s.currentQuestionIndex + 1 ∧
      (RT2.handleInterviewResponse s t ev g now).phase =
        (if s.currentQuestionIndex + 1 < s.questions.length ∧ 180000 < RT2.remainingMs s now
         then s.phase else Phase.Q_AND_A)) := by
  have hmove : ∀ (s' : RT2.State) (p : Option String) (b : String),
      s'.currentQuestionIndex = s.currentQuestionIndex → s'.questions = s.questions →
      s'.phase = s.phase → s'.sessionDurationMinutes = s.sessionDurationMinutes →
      s'.sessionStartTime = s.sessionStartTime →
      ((RT2.moveToNextQuestion s' p b g now).currentQuestionIndex = s.currentQuestionIndex + 1 ∧
        (RT2.moveToNextQuestion s' p b g now).phase =
          (if s.currentQuestionIndex + 1 < s.questions.length ∧ 180000 < RT2.remainingMs s now
           then s.phase else Phase.Q_AND_A)) := by
    intro s' p b hc hq hp hd hs
    refine ⟨by rw [rt2_moveToNextQuestion_cursor, hc], ?_⟩
    rw [rt2_moveToNextQuestion_phase, hc, hq, hp]
    have hrem : RT2.remainingMs s' now = RT2.remainingMs s now := by
      simp [RT2.remainingMs, hd, hs]
    rw [hrem]
  simp only [RT2.handleInterviewResponse]
  split
  · right
    exact hmove { s with isInsideFollowUp := false } (some t) "" rfl rfl rfl rfl rfl
  · split
    · right
      exact hmove s (some RT2.fallbackThanks) "" rfl rfl rfl rfl rfl
    · split
      · left
        simp [RT2.startSilenceTimer]
      · split
        · left
          simp
        · right
          exact hmove s none _ rfl rfl rfl rfl rfl

theorem rt2_handleInterviewResponse_questions (s : RT2.State) (t : String) (ev : GptEval)
    (g : GptText) (now : Nat) :
    (RT2.handleInterviewResponse s t ev g now).questions = s.questions := by
  simp only [RT2.handleInterviewResponse]
  split
  · rw [rt2_moveToNextQuestion_questions]
  · split
    · rw [rt2_moveToNextQuestion_questions]
    · split
      · simp [RT2.startSilenceTimer]
      · split
        · simp
        · rw [rt2_moveToNextQuestion_questions]

theorem rt2_handleQandAResponse_shape (s : RT2.State) (d : Bool) (g : GptText) (now : Nat) :
    ((RT2.handleQandAResponse s d g now).phase = s.phase ∨
      (RT2.handleQandAResponse s d g now).phase = Phase.CLOSING) ∧
    (RT2.handleQandAResponse s d g now).currentQuestionIndex = s.currentQuestionIndex ∧
    (RT2.handleQandAResponse s d g now).questions = s.questions := by
  simp only [RT2.handleQandAResponse]
  split
  · refine ⟨Or.inr ?_, ?_, ?_⟩ <;> split <;> simp
  · exact ⟨Or.inl (by simp), by simp, by simp⟩

theorem rt2_dispatchTurn_questions (s : RT2.State) (t : String) (o : RT.CommitOracle) (now : Nat) :
    (RT2.dispatchTurn s t o now).questions = s.questions := by
  unfold RT2.dispatchTurn
  split
  · rw [rt2_handleSmallTalkResponse_questions]
  · rw [rt2_handleInterviewResponse_questions]
  · exact (rt2_handleQandAResponse_shape s o.done o.gen now).2.2
  · rfl

theorem rt2_commit_questions (s : RT2.State) (o : RT.CommitOracle) (now : Nat) :
    (RT2.commitUserAudio s o now).questions = s.questions := by
  simp only [RT2.commitUserAudio]
  split
  · rfl
  split
  · simp [RT2.send]
  split
  · simp [RT2.send, RT2.startSilenceTimer]
  · rw [rt2_dispatchTurn_questions]
    simp [RT2.saveTranscript]

theorem rt2_silenceBody_frame (s : RT2.State) (k : Nat) :
    (RT2.silenceTimerBody s k).phase = s.phase ∧
    (RT2.silenceTimerBody s k).currentQuestionIndex = s.currentQuestionIndex ∧
    (RT2.silenceTimerBody s k).questions = s.questions := by
  simp only [RT2.silenceTimerBody]
  repeat' split
  all_goals simp [RT2.startSilenceTimer]

theorem rt2_fireHardLimit_frame (s : RT2.State) :
    (RT2.fireHardLimit s).phase = s.phase ∧
    (RT2.fireHardLimit s).currentQuestionIndex = s.currentQuestionIndex ∧
    (RT2.fireHardLimit s).questions = s.questions := by
  simp only [RT2.fireHardLimit]
  repeat' split
  all_goals simp [RT2.stopSilenceTimer]

theorem rt2_terminate_frame (s : RT2.State) (r : String) :
    (RT2.terminateSession s r).phase = s.phase ∧
    (RT2.terminateSession s r).currentQuestionIndex = s.currentQuestionIndex ∧
    (RT2.terminateSession s r).questions = s.questions := by
  simp only [RT2.terminateSession]
  repeat' split
  all_goals simp [RT2.stopSilenceTimer, RT2.send]

theorem rt2_cursorInv_dispatch (n : Nat) (hn : 1 ≤ n) (s : RT2.State) (t : String)
    (o : RT.CommitOracle) (now : Nat) (h : RT2.CursorInv n s) :
    RT2.CursorInv n (RT2.dispatchTurn s t o now) := by
  obtain ⟨h1, h2, h3, h4⟩ := h
  unfold RT2.dispatchTurn
  split
  all_goals rename_i hp
  · rcases rt2_handleSmallTalkResponse_phase s o.eval with hc | hc
    · refine ⟨by rw [rt2_handleSmallTalkResponse_questions, h1],
        by rw [rt2_handleSmallTalkResponse_cursor]; exact h2, ?_, ?_⟩
      · intro hI
        rw [hc, hp] at hI
        exact absurd hI (by decide)
      · intro _
        rw [rt2_handleSmallTalkResponse_cursor]
        exact h4 (Or.inr hp)
    · refine ⟨by rw [rt2_handleSmallTalkResponse_questions, h1], ?_, ?_, ?_⟩
      · rw [hc.2]
        exact h2
      · intro _
        rw [hc.2, h4 (Or.inr hp)]
        exact hn
      · intro hI
        rcases hI with hI | hI <;> rw [hc.1] at hI <;> exact absurd hI (by decide)
  · rcases rt2_handleInterviewResponse_shape s t o.eval o.gen now with hc | hc
    · refine ⟨by rw [rt2_handleInterviewResponse_questions, h1],
        by rw [hc.2]; exact h2, ?_, ?_⟩
      · intro _
        rw [hc.2]
        exact h3 hp
      · intro hI
        rcases hI with hI | hI <;> rw [hc.1, hp] at hI <;> exact absurd hI (by decide)
    · have hlt : s.currentQuestionIndex < n := h3 hp
      refine ⟨by rw [rt2_handleInterviewResponse_questions, h1],
        by rw [hc.1]; omega, ?_, ?_⟩
      · intro hI
        rw [hc.2] at hI
        rw [hc.1]
        split at hI
        · rename_i hcond
          rw [h1] at hcond
          exact hcond.1
        · exact absurd hI (by decide)
      · intro hI
        rw [hc.2] at hI
        split at hI
        · rename_i hcond
          rw [hp] at hI
          exact absurd hI (by decide)
        · exact absurd hI (by decide)
  · obtain ⟨hph, hcur, hqs⟩ := rt2_handleQandAResponse_shape s o.done o.gen now
    refine ⟨by rw [hqs, h1], by rw [hcur]; exact h2, ?_, ?_⟩
    · intro hI
      rcases hph with hc | hc <;> rw [hc] at hI
      · rw [hp] at hI
        exact absurd hI (by decide)
      · exact absurd hI (by decide)
    · intro hI
      rcases hph with hc | hc <;> rcases hI with hI | hI <;> rw [hc] at hI
      · rw [hp] at hI
        exact absurd hI (by decide)
      · rw [hp] at hI
        exact absurd hI (by decide)
      · exact absurd hI (by decide)
      · exact absurd hI (by decide)
  · exact ⟨h1, h2, h3, h4⟩

theorem rt2_cursorInv_step (n : Nat) (hn : 1 ≤ n) (s : RT2.State) (e : RT2.Event)
    (h : RT2.CursorInv n s) : RT2.CursorInv n (RT2.step s e) := by
  obtain ⟨h1, h2, h3, h4⟩ := h
  cases e with
  | userAudio c =>
    simp only [RT2.step, RT2.handleUserAudio]
    split
    · exact ⟨h1, h2, h3, h4⟩
    · exact ⟨h1, h2, h3, h4⟩
  | commit o now =>
    show RT2.CursorInv n (RT2.commitUserAudio s o now)
    simp only [RT2.commitUserAudio]
    split
    · exact ⟨h1, h2, h3, h4⟩
    split
    · exact ⟨h1, h2, h3, h4⟩
    split
    · exact ⟨h1, h2, h3, h4⟩
    · exact rt2_cursorInv_dispatch n hn _ _ o now ⟨h1, h2, h3, h4⟩
  | playbackComplete =>
    simp only [RT2.step, RT2.handleAiPlaybackComplete]
    split
    · exact ⟨h1, h2, h3, h4⟩
    · exact ⟨h1, h2, h3, h4⟩
  | silenceFire k =>
    simp only [RT2.step, RT2.fireSilenceTimer]
    split
    · exact ⟨h1, h2, h3, h4⟩
    · obtain ⟨hph, hcur, hqs⟩ := rt2_silenceBody_frame (RT2.stopSilenceTimer s) k
      refine ⟨?_, ?_, ?_, ?_⟩
      · rw [hqs]
        exact h1
      · rw [hcur]
        exact h2
      · intro hI
        rw [hph] at hI
        rw [hcur]
        exact h3 hI
      · intro hI
        rw [hph] at hI
        rw [hcur]
        exact h4 hI
  | hardLimitFire =>
    show RT2.CursorInv n (RT2.fireHardLimit s)
    obtain ⟨hph, hcur, hqs⟩ := rt2_fireHardLimit_frame s
    refine ⟨by rw [hqs]; exact h1, by rw [hcur]; exact h2, ?_, ?_⟩
    · intro hI
      rw [hph] at hI
      rw [hcur]
      exact h3 hI
    · intro hI
      rw [hph] at hI
      rw [hcur]
      exact h4 hI
  | termFire =>
    simp only [RT2.step, RT2.fireTermTimer]
    split
    · exact ⟨h1, h2, h3, h4⟩
    · obtain ⟨hph, hcur, hqs⟩ := rt2_terminate_frame
        { s with pendingTermination := none } _
      refine ⟨by rw [hqs]; exact h1, by rw [hcur]; exact h2, ?_, ?_⟩
      · intro hI
        rw [hph] at hI
        rw [hcur]
        exact h3 hI
      · intro hI
        rw [hph] at hI
        rw [hcur]
        exact h4 hI
  | closeFire =>
    simp only [RT2.step, RT2.fireCloseTimer]
    split
    · split
      · exact ⟨h1, h2, h3, h4⟩
      · exact ⟨h1, h2, h3, h4⟩
    · exact ⟨h1, h2, h3, h4⟩

theorem rt2_cursorInv_init (q : List String) (role comp jd : String) (d now0 : Nat) :
    RT2.CursorInv q.length (RT2.init q role comp jd d now0) := by
  refine ⟨?_, ?_, ?_, ?_⟩
  · simp [RT2.init, RT2.handleIntro, RT2.initState]
  · simp [RT2.init, RT2.handleIntro, RT2.initState]
  · intro hI
    have : (RT2.init q role comp jd d now0).phase = Phase.SMALL_TALK := by
      simp [RT2.init, RT2.handleIntro]
    rw [this] at hI
    exact absurd hI (by decide)
  · intro _
    simp [RT2.init, RT2.handleIntro, RT2.initState]

theorem rt2_cursorInv_run (n : Nat) (hn : 1 ≤ n) (s : RT2.State) (evs : List RT2.Event)
    (h : RT2.CursorInv n s) : RT2.CursorInv n (RT2.run s evs) := by
  induction evs generalizing s with
  | nil => exact h
  | cons e rest ih => exact ih (RT2.step s e) (rt2_cursorInv_step n hn s e h)

theorem rt_handleSmallTalkResponse_cursor (s : RT.State) (g : GptText) :
    (RT.handleSmallTalkResponse s g).currentQuestionIndex = s.currentQuestionIndex := by
  simp only [RT.handleSmallTalkResponse]
  simp

theorem rt_handleSmallTalkResponse_questions (s : RT.State) (g : GptText) :
    (RT.handleSmallTalkResponse s g).questions = s.questions := by
  simp only [RT.handleSmallTalkResponse]
  simp

theorem rt_handleInterviewResponse_shape (s : RT.State) (t : String) (ev : GptEval)
    (g : GptText) :
    ((RT.handleInterviewResponse s t ev g).phase = s.phase ∧
      (RT.handleInterviewResponse s t ev g).currentQuestionIndex = s.currentQuestionIndex) ∨
    ((RT.handleInterviewResponse s t ev g).currentQuestionIndex = s.currentQuestionIndex + 1 ∧
      (RT.handleInterviewResponse s t ev g).phase =
        (if s.currentQuestionIndex + 1 < s.questions.length then s.phase
         else Phase.Q_AND_A)) := by
  have hmove : ∀ (s' : RT.State) (p : Option String) (b : String),
      s'.currentQuestionIndex = s.currentQuestionIndex → s'.questions = s.questions →
      s'.phase = s.phase →
      ((RT.moveToNextQuestion s' p b g).currentQuestionIndex = s.currentQuestionIndex + 1 ∧
        (RT.moveToNextQuestion s' p b g).phase =
          (if s.currentQuestionIndex + 1 < s.questions.length then s.phase
           else Phase.Q_AND_A)) := by
    intro s' p b hc hq hp
    refine ⟨by rw [rt_moveToNextQuestion_cursor, hc], ?_⟩
    rw [rt_moveToNextQuestion_phase, hc, hq, hp]
  simp only [RT.handleInterviewResponse]
  split
  · right
    exact hmove { s with isInsideFollowUp := false } (some t) "" rfl rfl rfl
  · split
    · right
      exact hmove s (some RT.fallbackThanks) "" rfl rfl rfl
    · split
      · left
        simp [RT.startSilenceTimer]
      · split
        · left
          simp
        · right
          exact hmove s none _ rfl rfl rfl

theorem rt_handleInterviewResponse_questions (s : RT.State) (t : String) (ev : GptEval)
    (g : GptText) :
    (RT.handleInterviewResponse s t ev g).questions = s.questions := by
  simp only [RT.handleInterviewResponse]
  repeat' split
  all_goals simp [rt_moveToNextQuestion_questions, RT.startSilenceTimer]

theorem rt_handleQandAResponse_shape (s : RT.State) (d : Bool) (g : GptText) :
    ((RT.handleQandAResponse s d g).phase = s.phase ∨
      (RT.handleQandAResponse s d g).phase = Phase.CLOSING) ∧
    (RT.handleQandAResponse s d g).currentQuestionIndex = s.currentQuestionIndex ∧
    (RT.handleQandAResponse s d g).questions = s.questions := by
  simp only [RT.handleQandAResponse]
  split
  · exact ⟨Or.inr (by simp), by simp, by simp⟩
  · exact ⟨Or.inl (by simp), by simp, by simp⟩

theorem rt_silenceBody_frame (s : RT.State) (k : Nat) :
    (RT.silenceTimerBody s k).phase = s.phase ∧
    (RT.silenceTimerBody s k).currentQuestionIndex = s.currentQuestionIndex ∧
    (RT.silenceTimerBody s k).questions = s.questions := by
  simp only [RT.silenceTimerBody]
  repeat' split
  all_goals simp [RT.startSilenceTimer]

theorem rt_terminate_frame (s : RT.State) (r : String) :
    (RT.terminateSession s r).phase = s.phase ∧
    (RT.terminateSession s r).currentQuestionIndex = s.currentQuestionIndex ∧
    (RT.terminateSession s r).questions = s.questions := by
  simp only [RT.terminateSession]
  repeat' split
  all_goals simp [RT.stopSilenceTimer, RT.send]

theorem rt_cursorInv_dispatch (n : Nat) (hn : 1 ≤ n) (s : RT.State) (t : String)
    (o : RT.CommitOracle) (h : RT.CursorInv n s) :
    RT.CursorInv n (RT.dispatchTurn s t o) := by
  obtain ⟨h1, h2, h3, h4⟩ := h
  unfold RT.dispatchTurn
  split
  all_goals rename_i hp
  · refine ⟨by rw [rt_handleSmallTalkResponse_questions, h1], ?_, ?_, ?_⟩
    · rw [rt_handleSmallTalkResponse_cursor]
      exact h2
    · intro _
      rw [rt_handleSmallTalkResponse_cursor, h4 (Or.inr hp)]
      exact hn
    · intro hI
      rcases hI with hI | hI <;> rw [rt_handleSmallTalkResponse_phase] at hI <;>
        exact absurd hI (by decide)
  · rcases rt_handleInterviewResponse_shape s t o.eval o.gen with hc | hc
    · refine ⟨by rw [rt_handleInterviewResponse_questions, h1],
        by rw [hc.2]; exact h2, ?_, ?_⟩
      · intro _
        rw [hc.2]
        exact h3 hp
      · intro hI
        rcases hI with hI | hI <;> rw [hc.1, hp] at hI <;> exact absurd hI (by decide)
    · have hlt : s.currentQuestionIndex < n := h3 hp
      refine ⟨by rw [rt_handleInterviewResponse_questions, h1],
        by rw [hc.1]; omega, ?_, ?_⟩
      · intro hI
        rw [hc.2] at hI
        rw [hc.1]
        split at hI
        · rename_i hcond
          rw [h1] at hcond
          exact hcond
        · exact absurd hI (by decide)
      · intro hI
        rw [hc.2] at hI
        split at hI
        · rename_i hcond
          rw [hp] at hI
          exact absurd hI (by decide)
        · exact absurd hI (by decide)
  · obtain ⟨hph, hcur, hqs⟩ := rt_handleQandAResponse_shape s o.done o.gen
    refine ⟨by rw [hqs, h1], by rw [hcur]; exact h2, ?_, ?_⟩
    · intro hI
      rcases hph with hc | hc <;> rw [hc] at hI
      · rw [hp] at hI
        exact absurd hI (by decide)
      · exact absurd hI (by decide)
    · intro hI
      rcases hph with hc | hc <;> rcases hI with hI | hI <;> rw [hc] at hI
      · rw [hp] at hI
        exact absurd hI (by decide)
      · rw [hp] at hI
        exact absurd hI (by decide)
      · exact absurd hI (by decide)
      · exact absurd hI (by decide)
  · exact ⟨h1, h2, h3, h4⟩

theorem rt_cursorInv_step (n : Nat) (hn : 1 ≤ n) (s : RT.State) (e : RT.Event)
    (h : RT.CursorInv n s) : RT.CursorInv n (RT.step s e) := by
  obtain ⟨h1, h2, h3, h4⟩ := h
  cases e with
  | userAudio c =>
    simp only [RT.step, RT.handleUserAudio]
    split
    · exact ⟨h1, h2, h3, h4⟩
    · exact ⟨h1, h2, h3, h4⟩
  | commit o =>
    show RT.CursorInv n (RT.commitUserAudio s o)
    simp only [RT.commitUserAudio]
    split
    · exact ⟨h1, h2, h3, h4⟩
    split
    · exact ⟨h1, h2, h3, h4⟩
    split
    · exact ⟨h1, h2, h3, h4⟩
    · exact rt_cursorInv_dispatch n hn _ _ o ⟨h1, h2, h3, h4⟩
  | silenceFire k =>
    simp only [RT.step, RT.fireSilenceTimer]
    split
    · exact ⟨h1, h2, h3, h4⟩
    · obtain ⟨hph, hcur, hqs⟩ := rt_silenceBody_frame (RT.stopSilenceTimer s) k
      refine ⟨?_, ?_, ?_, ?_⟩
      · rw [hqs]
        exact h1
      · rw [hcur]
        exact h2
      · intro hI
        rw [hph] at hI
        rw [hcur]
        exact h3 hI
      · intro hI
        rw [hph] at hI
        rw [hcur]
        exact h4 hI
  | termFire =>
    simp only [RT.step, RT.fireTermTimer]
    split
    · exact ⟨h1, h2, h3, h4⟩
    · obtain ⟨hph, hcur, hqs⟩ := rt_terminate_frame
        { s with pendingTermination := none } _
      refine ⟨by rw [hqs]; exact h1, by rw [hcur]; exact h2, ?_, ?_⟩
      · intro hI
        rw [hph] at hI
        rw [hcur]
        exact h3 hI
      · intro hI
        rw [hph] at hI
        rw [hcur]
        exact h4 hI
  | closeFire =>
    simp only [RT.step, RT.fireCloseTimer]
    split
    · split
      · exact ⟨h1, h2, h3, h4⟩
      · exact ⟨h1, h2, h3, h4⟩
    · exact ⟨h1, h2, h3, h4⟩

theorem rt_cursorInv_init (q : List String) (role comp jd : String) :
    RT.CursorInv q.length (RT.init q role comp jd) := by
  refine ⟨?_, ?_, ?_, ?_⟩
  · simp [RT.init, RT.handleIntro, RT.initState]
  · simp [RT.init, RT.handleIntro, RT.initState]
  · intro hI
    have : (RT.init q role comp jd).phase = Phase.SMALL_TALK := by
      simp [RT.init, RT.handleIntro]
    rw [this] at hI
    exact absurd hI (by decide)
  · intro _
    simp [RT.init, RT.handleIntro, RT.initState]

theorem rt_cursorInv_run (n : Nat) (hn : 1 ≤ n) (s : RT.State) (evs : List RT.Event)
    (h : RT.CursorInv n s) : RT.CursorInv n (RT.run s evs) := by
  induction evs generalizing s with
  | nil => exact h
  | cons e rest ih => exact ih (RT.step s e) (rt_cursorInv_step n hn s e h)

/-- C2 (amended). Question cursor bound, in both the base
RealtimeSession and the time-managed variant: for every session whose
question list is non-empty, the cursor never exceeds the list length in
any reachable state (and is strictly below it while in INTERVIEW), and
advancing always increments the cursor and leaves INTERVIEW for Q_AND_A
as soon as the incremented cursor reaches or passes the end of the list
(or, in the time-managed variant only, the remaining session time is at
or below the 3-minute floor). With an empty question list the first
interview turn pushes the cursor to 1, one past the length, so the
unrestricted claim fails. -/
theorem C2_question_cursor_bound :
    (∀ (q : List String) (role comp jd : String) (evs : List RT.Event),
      q ≠ [] →
      (RT.run (RT.init q role comp jd) evs).currentQuestionIndex ≤ q.length
      ∧ ((RT.run (RT.init q role comp jd) evs).phase = Phase.INTERVIEW →
          (RT.run (RT.init q role comp jd) evs).currentQuestionIndex < q.length))
    ∧ (∀ (s : RT.State) (p : Option String) (b : String) (g : GptText),
        (RT.moveToNextQuestion s p b g).currentQuestionIndex = s.currentQuestionIndex + 1
        ∧ (¬(s.currentQuestionIndex + 1 < s.questions.length) →
            (RT.moveToNextQuestion s p b g).phase = Phase.Q_AND_A))
    ∧ (∀ (q : List String) (role comp jd : String) (d now0 : Nat) (evs : List RT2.Event),
      q ≠ [] →
      (RT2.run (RT2.init q role comp jd d now0) evs).currentQuestionIndex ≤ q.length
      ∧ ((RT2.run (RT2.init q role comp jd d now0) evs).phase = Phase.INTERVIEW →
          (RT2.run (RT2.init q role comp jd d now0) evs).currentQuestionIndex < q.length))
    ∧ (∀ (s : RT2.State) (p : Option String) (b : String) (g : GptText) (now : Nat),
        (RT2.moveToNextQuestion s p b g now).currentQuestionIndex = s.currentQuestionIndex + 1
        ∧ (¬(s.currentQuestionIndex + 1 < s.questions.length ∧ 180000 < RT2.remainingMs s now) →
            (RT2.moveToNextQuestion s p b g now).phase = Phase.Q_AND_A)) := by
  refine ⟨?_, ?_, ?_, ?_⟩
  · intro q role comp jd evs hq
    have hn : 1 ≤ q.length := List.length_pos.mpr hq
    have h := rt_cursorInv_run q.length hn _ evs (rt_cursorInv_init q role comp jd)
    exact ⟨h.2.1, h.2.2.1⟩
  · intro s p b g
    refine ⟨rt_moveToNextQuestion_cursor s p b g, ?_⟩
    intro hc
    rw [rt_moveToNextQuestion_phase, if_neg hc]
  · intro q role comp jd d now0 evs hq
    have hn : 1 ≤ q.length := List.length_pos.mpr hq
    have h := rt2_cursorInv_run q.length hn _ evs (rt2_cursorInv_init q role comp jd d now0)
    exact ⟨h.2.1, h.2.2.1⟩
  · intro s p b g now
    refine ⟨rt2_moveToNextQuestion_cursor s p b g now, ?_⟩
    intro hc
    rw [rt2_moveToNextQuestion_phase, if_neg hc]

/-- Counterexample to C2 as stated: in both machines, a session whose
question list is empty reaches cursor 1 after a single interview turn,
exceeding the list length 0. -/
theorem C2_counterexample :
    (RT.run (RT.init [] "re" "co" "jd")
      [RT.Event.userAudio "a",
       RT.Event.commit { whisper := WhisperResult.ok (mkRat 0 1) "I am good", eval := GptEval.ok "CONTINUE" "Nice to hear.", gen := GptText.ok "x", done := false },
       RT.Event.userAudio "b",
       RT.Event.commit { whisper := WhisperResult.ok (mkRat 0 1) "An answer", eval := GptEval.ok "MOVE_ON" "Thanks for sharing.", gen := GptText.ok "y", done := false }]).questions.length = 0
    ∧ (RT.run (RT.init [] "re" "co" "jd")
      [RT.Event.userAudio "a",
       RT.Event.commit { whisper := WhisperResult.ok (mkRat 0 1) "I am good", eval := GptEval.ok "CONTINUE" "Nice to hear.", gen := GptText.ok "x", done := false },
       RT.Event.userAudio "b",
       RT.Event.commit { whisper := WhisperResult.ok (mkRat 0 1) "An answer", eval := GptEval.ok "MOVE_ON" "Thanks for sharing.", gen := GptText.ok "y", done := false }]).currentQuestionIndex = 1
    ∧ (RT2.run (RT2.init [] "re" "co" "jd" 30 0)
      [RT2.Event.userAudio "a",
       RT2.Event.commit { whisper := WhisperResult.ok (mkRat 0 1) "I am good", eval := GptEval.ok "CONTINUE" "Nice to hear.", gen := GptText.ok "x", done := false } 1000,
       RT2.Event.userAudio "b",
       RT2.Event.commit { whisper := WhisperResult.ok (mkRat 0 1) "An answer", eval := GptEval.ok "MOVE_ON" "Thanks for sharing.", gen := GptText.ok "y", done := false } 2000]).questions.length = 0
    ∧ (RT2.run (RT2.init [] "re" "co" "jd" 30 0)
      [RT2.Event.userAudio "a",
       RT2.Event.commit { whisper := WhisperResult.ok (mkRat 0 1) "I am good", eval := GptEval.ok "CONTINUE" "Nice to hear.", gen := GptText.ok "x", done := false } 1000,
       RT2.Event.userAudio "b",
       RT2.Event.commit { whisper := WhisperResult.ok (mkRat 0 1) "An answer", eval := GptEval.ok "MOVE_ON" "Thanks for sharing.", gen := GptText.ok "y", done := false } 2000]).currentQuestionIndex = 1 := by
  decide

/-- Witness for C2 at concrete inputs, exercising both machines. -/
theorem C2_witness :
    (RT.run (RT.init ["Q1"] "re" "co" "jd")
      [RT.Event.userAudio "a",
       RT.Event.commit { whisper := WhisperResult.ok (mkRat 0 1) "I am good", eval := GptEval.ok "CONTINUE" "Nice to hear.", gen := GptText.ok "x", done := false }]).currentQuestionIndex ≤ (["Q1"] : List String).length
    ∧ (RT.moveToNextQuestion (RT.init ["Q1"] "re" "co" "jd") none "b"
        (GptText.ok "g")).phase = Phase.Q_AND_A
    ∧ (RT2.run (RT2.init ["Q1"] "re" "co" "jd" 30 0)
      [RT2.Event.userAudio "a",
       RT2.Event.commit { whisper := WhisperResult.ok (mkRat 0 1) "I am good", eval := GptEval.ok "CONTINUE" "Nice to hear.", gen := GptText.ok "x", done := false } 1000]).currentQuestionIndex ≤ (["Q1"] : List String).length
    ∧ (RT2.moveToNextQuestion (RT2.init ["Q1"] "re" "co" "jd" 30 0) none "b"
        (GptText.ok "g") 999999999).phase = Phase.Q_AND_A := by
  refine ⟨?_, ?_, ?_, ?_⟩
  · exact (C2_question_cursor_bound.1 ["Q1"] "re" "co" "jd"
      [RT.Event.userAudio "a",
       RT.Event.commit { whisper := WhisperResult.ok (mkRat 0 1) "I am good", eval := GptEval.ok "CONTINUE" "Nice to hear.", gen := GptText.ok "x", done := false }] (by decide)).1
  · exact (C2_question_cursor_bound.2.1 (RT.init ["Q1"] "re" "co" "jd") none "b"
      (GptText.ok "g")).2 (by decide)
  · exact (C2_question_cursor_bound.2.2.1 ["Q1"] "re" "co" "jd" 30 0
      [RT2.Event.userAudio "a",
       RT2.Event.commit { whisper := WhisperResult.ok (mkRat 0 1) "I am good", eval := GptEval.ok "CONTINUE" "Nice to hear.", gen := GptText.ok "x", done := false } 1000] (by decide)).1
  · exact (C2_question_cursor_bound.2.2.2 (RT2.init ["Q1"] "re" "co" "jd" 30 0) none "b"
      (GptText.ok "g") 999999999).2 (by decide)

/-- C8 (amended). Hard session-duration limiter: the one-shot failsafe
timer armed at session start is set to target duration plus two minutes
(720000 ms, i.e. minute 12, for a 10-minute target - not minute 11), and
on firing, regardless of the current phase, the apology-and-goodbye
utterance is spoken and termination is scheduled with the hard-limit
override reason. -/
theorem C8_hard_limit_override :
    (∀ (q : List String) (role comp jd : String) (d now0 : Nat), d ≠ 0 →
      (RT2.init q role comp jd d now0).hardLimitTimer = some (RT2.hardLimitMs d)
      ∧ RT2.hardLimitMs d = (d + 2) * 60 * 1000)
    ∧ (∀ s : RT2.State, s.isTerminating = false → s.hardLimitTimer ≠ none →
        (RT2.fireHardLimit s).transcript =
          s.transcript ++ [(Speaker.assistant, RT2.hardLimitApology)]
        ∧ (RT2.fireHardLimit s).pendingTermination = some RT2.reasonHardLimit
        ∧ (RT2.fireHardLimit s).phase = s.phase) := by
  constructor
  · intro q role comp jd d now0 hd
    constructor
    · simp only [RT2.init, RT2.handleIntro, RT2.initState, rt2_speak_hardLimitTimer]
      rw [if_neg hd]
    · rfl
  · intro s hT htimer
    obtain ⟨ms, hms⟩ := Option.ne_none_iff_exists'.mp htimer
    have hsp := rt2_speak_transcript_eq
      (RT2.stopSilenceTimer { s with hardLimitTimer := none }) RT2.hardLimitApology
      (by simp [RT2.stopSilenceTimer, hT])
    simp only [RT2.fireHardLimit, hms]
    refine ⟨?_, ?_, ?_⟩
    · rw [show (RT2.stopSilenceTimer { s with hardLimitTimer := none }).transcript =
        s.transcript from by simp [RT2.stopSilenceTimer]] at hsp
      exact hsp
    · trivial
    · rw [rt2_speak_phase]
      simp [RT2.stopSilenceTimer]

/-- Counterexample to C8 as stated: for a 10-minute target the failsafe
timer is armed for minute 12, not minute 11. -/
theorem C8_counterexample :
    (RT2.init ["Q1"] "re" "co" "jd" 10 0).hardLimitTimer = some 720000
    ∧ (RT2.init ["Q1"] "re" "co" "jd" 10 0).hardLimitTimer ≠ some (11 * 60 * 1000) := by
  decide

/-- Witness for C8 at concrete inputs. -/
theorem C8_witness :
    (RT2.init ["Q1"] "re" "co" "jd" 10 0).hardLimitTimer = some (RT2.hardLimitMs 10)
    ∧ (RT2.fireHardLimit (RT2.init ["Q1"] "re" "co" "jd" 10 0)).pendingTermination =
        some RT2.reasonHardLimit := by
  constructor
  · exact (C8_hard_limit_override.1 ["Q1"] "re" "co" "jd" 10 0 (by decide)).1
  · exact (C8_hard_limit_override.2 (RT2.init ["Q1"] "re" "co" "jd" 10 0)
      (by decide) (by decide)).2.1

/-- C3. Backchannel filtering: a transcribed user fragment that arrives
while the barge-in flag is set, whose trimmed text is non-empty and has
fewer than 3 words, is deleted from the upstream conversation context,
is not persisted as a transcript entry, arms the response-cancel flag
(so the next output item added by the upstream is cancelled), and
advances no other session state. -/
theorem C3_backchannel_filtering :
    ∀ (s : ORS.State) (itemId txt : String),
      s.isInterruptionContext = true → jsTrim txt ≠ "" → ORS.jsWordCount txt < 3 →
      (ORS.onTranscriptionCompleted s itemId txt).transcript = s.transcript
      ∧ (ORS.onTranscriptionCompleted s itemId txt).upstreamSent =
          s.upstreamSent ++ [ORS.UpMsg.itemDelete itemId]
      ∧ (ORS.onTranscriptionCompleted s itemId txt).potentialBackchannelId = some itemId
      ∧ (ORS.onTranscriptionCompleted s itemId txt).clientSent = s.clientSent
      ∧ (ORS.onTranscriptionCompleted s itemId txt).silenceStage = s.silenceStage
      ∧ (ORS.onTranscriptionCompleted s itemId txt).silenceTimeout = s.silenceTimeout
      ∧ (ORS.onTranscriptionCompleted s itemId txt).isGreetingPhase = s.isGreetingPhase
      ∧ (ORS.step (ORS.onTranscriptionCompleted s itemId txt) ORS.Event.outputItemAdded).upstreamSent =
          (ORS.onTranscriptionCompleted s itemId txt).upstreamSent ++ [ORS.UpMsg.responseCancel]
      ∧ (ORS.step (ORS.onTranscriptionCompleted s itemId txt) ORS.Event.outputItemAdded).transcript =
          s.transcript := by
  intro s itemId txt hctx htrim hwc
  have hcond : s.isInterruptionContext = true ∧ ORS.jsWordCount txt < 3 ∧ jsTrim txt ≠ "" :=
    ⟨hctx, hwc, htrim⟩
  have hmain : ORS.onTranscriptionCompleted s itemId txt =
      { ORS.sendUp s (ORS.UpMsg.itemDelete itemId) with
          potentialBackchannelId := some itemId, isInterruptionContext := false } := by
    simp only [ORS.onTranscriptionCompleted]
    rw [if_pos hcond]
  rw [hmain]
  refine ⟨by simp [ORS.sendUp], by simp [ORS.sendUp], by simp [ORS.sendUp],
    by simp [ORS.sendUp], by simp [ORS.sendUp], by simp [ORS.sendUp], by simp [ORS.sendUp],
    ?_, ?_⟩
  · simp [ORS.step, ORS.onOutputItemAdded, ORS.sendUp]
  · simp [ORS.step, ORS.onOutputItemAdded, ORS.sendUp]

/-- Witness for C3 at concrete inputs. -/
theorem C3_witness :
    jsTrim "uh-huh" ≠ ""
    ∧ ORS.jsWordCount "uh-huh" < 3
    ∧ (ORS.onTranscriptionCompleted { ORS.init with isInterruptionContext := true }
        "item_1" "uh-huh").transcript =
      ({ ORS.init with isInterruptionContext := true } : ORS.State).transcript
    ∧ (ORS.onTranscriptionCompleted { ORS.init with isInterruptionContext := true }
        "item_1" "uh-huh").upstreamSent =
      ({ ORS.init with isInterruptionContext := true } : ORS.State).upstreamSent ++
        [ORS.UpMsg.itemDelete "item_1"] := by
  refine ⟨by decide, by decide, ?_, ?_⟩
  · exact (C3_backchannel_filtering { ORS.init with isInterruptionContext := true }
      "item_1" "uh-huh" rfl (by decide) (by decide)).1
  · exact (C3_backchannel_filtering { ORS.init with isInterruptionContext := true }
      "item_1" "uh-huh" rfl (by decide) (by decide)).2.1

/-- C6 (amended). Generation-failure fallback: when the evaluation call
of handleInterviewResponse throws or returns unparsable output, the
error is caught and moveToNextQuestion is invoked with the fixed phrase
Thanks. as the previous-answer context (the phrase itself is never
spoken; the spoken bridge is generated separately, falling back to
Lets continue. when that call fails too), and the cursor advances by
one exactly as in the MOVE_ON case, so the handler never rethrows and
the interview never stalls. -/
theorem C6_generation_failure_fallback :
    ∀ (s : RT.State) (userText : String) (g : GptText),
      s.isInsideFollowUp = false →
      RT.handleInterviewResponse s userText GptEval.fail g =
        RT.moveToNextQuestion s (some RT.fallbackThanks) "" g
      ∧ (RT.handleInterviewResponse s userText GptEval.fail g).currentQuestionIndex =
          s.currentQuestionIndex + 1
      ∧ (∀ content,
          (RT.handleInterviewResponse s userText (GptEval.ok "MOVE_ON" content) g).currentQuestionIndex =
            s.currentQuestionIndex + 1) := by
  intro s t g hf
  have hmain : RT.handleInterviewResponse s t GptEval.fail g =
      RT.moveToNextQuestion s (some RT.fallbackThanks) "" g := by
    simp only [RT.handleInterviewResponse]
    rw [if_neg (by simp [hf])]
  refine ⟨hmain, ?_, ?_⟩
  · rw [hmain, rt_moveToNextQuestion_cursor]
  · intro content
    have hmo : RT.handleInterviewResponse s t (GptEval.ok "MOVE_ON" content) g =
        RT.moveToNextQuestion s none content g := by
      simp only [RT.handleInterviewResponse]
      rw [if_neg (by simp [hf])]
      rw [if_neg (by decide), if_neg (by decide)]
    rw [hmo, rt_moveToNextQuestion_cursor]

/-- Counterexample to C6 as stated: in a run whose interview evaluation
call fails, the cursor advances but the phrase Thanks. is never spoken
or persisted - the spoken fallback is the generated bridge, here
Lets continue. because the bridge call failed as well. -/
theorem C6_counterexample :
    (RT.run (RT.init ["Q1", "Q2"] "re" "co" "jd")
      [RT.Event.userAudio "a",
       RT.Event.commit { whisper := WhisperResult.ok (mkRat 0 1) "I am doing well", eval := GptEval.fail, gen := GptText.ok "Good to hear.", done := false },
       RT.Event.userAudio "b",
       RT.Event.commit { whisper := WhisperResult.ok (mkRat 0 1) "My answer.", eval := GptEval.fail, gen := GptText.err, done := false }]).currentQuestionIndex = 1
    ∧ RT.fallbackThanks ∉
        ((RT.run (RT.init ["Q1", "Q2"] "re" "co" "jd")
          [RT.Event.userAudio "a",
           RT.Event.commit { whisper := WhisperResult.ok (mkRat 0 1) "I am doing well", eval := GptEval.fail, gen := GptText.ok "Good to hear.", done := false },
           RT.Event.userAudio "b",
           RT.Event.commit { whisper := WhisperResult.ok (mkRat 0 1) "My answer.", eval := GptEval.fail, gen := GptText.err, done := false }]).transcript.map Prod.snd)
    ∧ (Speaker.assistant, RT.continueMsg) ∈
        (RT.run (RT.init ["Q1", "Q2"] "re" "co" "jd")
          [RT.Event.userAudio "a",
           RT.Event.commit { whisper := WhisperResult.ok (mkRat 0 1) "I am doing well", eval := GptEval.fail, gen := GptText.ok "Good to hear.", done := false },
           RT.Event.userAudio "b",
           RT.Event.commit { whisper := WhisperResult.ok (mkRat 0 1) "My answer.", eval := GptEval.fail, gen := GptText.err, done := false }]).transcript := by
  decide

/-- Witness for C6 at concrete inputs. -/
theorem C6_witness :
    RT.handleInterviewResponse (RT.init ["Q1", "Q2"] "re" "co" "jd") "ans" GptEval.fail GptText.err =
      RT.moveToNextQuestion (RT.init ["Q1", "Q2"] "re" "co" "jd") (some RT.fallbackThanks) "" GptText.err
    ∧ (RT.handleInterviewResponse (RT.init ["Q1", "Q2"] "re" "co" "jd") "ans" GptEval.fail
        GptText.err).currentQuestionIndex =
      (RT.init ["Q1", "Q2"] "re" "co" "jd").currentQuestionIndex + 1 := by
  constructor
  · exact (C6_generation_failure_fallback (RT.init ["Q1", "Q2"] "re" "co" "jd") "ans"
      GptText.err (by decide)).1
  · exact (C6_generation_failure_fallback (RT.init ["Q1", "Q2"] "re" "co" "jd") "ans"
      GptText.err (by decide)).2.1

/-- C7 (amended). No-speech threshold discard: a committed turn whose
transcription carries a no-speech probability strictly above the 0.6
threshold - or whose decoded text is empty after trimming - is
discarded: no transcript entry is written, phase and cursor do not
advance, the buffer is cleared, the silence timer is re-armed, and the
client receives the silence-reset event instead of a spoken reply.
Turns with a no-speech score at or below the threshold are kept, so the
direction of the comparison in the original claim is inverted. -/
theorem C7_no_speech_discard :
    ∀ (s : RT.State) (o : RT.CommitOracle) (p : ℚ) (t : String),
      s.isTerminating = false → s.audioBuffer ≠ [] →
      o.whisper = WhisperResult.ok p t →
      (RT.noSpeechThreshold < p ∨ jsTrim t = "") →
      (RT.commitUserAudio s o).transcript = s.transcript
      ∧ (RT.commitUserAudio s o).phase = s.phase
      ∧ (RT.commitUserAudio s o).currentQuestionIndex = s.currentQuestionIndex
      ∧ (RT.commitUserAudio s o).clientSent = s.clientSent ++ [ClientMsg.aiSilence]
      ∧ (RT.commitUserAudio s o).audioBuffer = []
      ∧ (RT.commitUserAudio s o).silenceTimer = some RT.defaultSilenceMs := by
  intro s o p t hT hbuf hw hcase
  have hbuf' : s.audioBuffer.isEmpty = false := by
    cases hb : s.audioBuffer
    · exact absurd hb hbuf
    · rfl
  have hcond : (RT.transcribeAudio s o.whisper).2 = true ∨
      jsTrim (RT.transcribeAudio s o.whisper).1 = "" := by
    unfold RT.transcribeAudio
    rw [hw, if_neg (by simp [hbuf'])]
    dsimp only
    by_cases hp : RT.noSpeechThreshold < p
    · rw [if_pos hp]
      exact Or.inl rfl
    · rw [if_neg hp]
      rcases hcase with hcase | hcase
      · exact absurd hcase hp
      · exact Or.inr hcase
  simp only [RT.commitUserAudio]
  rw [if_neg (by simp [hT]), if_neg (by simp [hbuf']), if_pos hcond]
  refine ⟨by simp [RT.send, RT.startSilenceTimer], by simp [RT.send, RT.startSilenceTimer],
    by simp [RT.send, RT.startSilenceTimer], by simp [RT.send, RT.startSilenceTimer],
    by simp [RT.send, RT.startSilenceTimer], by simp [RT.send, RT.startSilenceTimer]⟩

/-- Counterexample to C7 as stated: a turn whose no-speech score 1/2 is
below the 0.6 threshold is not discarded - it is persisted as a user
transcript entry and the state advances to INTERVIEW. -/
theorem C7_counterexample :
    mkRat 1 2 < RT.noSpeechThreshold
    ∧ (Speaker.user, "hello there friend") ∈
        (RT.run (RT.init ["Q1"] "re" "co" "jd")
          [RT.Event.userAudio "a",
           RT.Event.commit { whisper := WhisperResult.ok (mkRat 1 2) "hello there friend", eval := GptEval.fail, gen := GptText.ok "Nice.", done := false }]).transcript
    ∧ (RT.run (RT.init ["Q1"] "re" "co" "jd")
        [RT.Event.userAudio "a",
         RT.Event.commit { whisper := WhisperResult.ok (mkRat 1 2) "hello there friend", eval := GptEval.fail, gen := GptText.ok "Nice.", done := false }]).phase =
      Phase.INTERVIEW := by
  decide

/-- Witness for C7 at concrete inputs. -/
theorem C7_witness :
    (RT.commitUserAudio (RT.run (RT.init ["Q1"] "re" "co" "jd") [RT.Event.userAudio "a"])
      { whisper := WhisperResult.ok (mkRat 7 10) "hi", eval := GptEval.fail, gen := GptText.err, done := false }).transcript =
      (RT.run (RT.init ["Q1"] "re" "co" "jd") [RT.Event.userAudio "a"]).transcript
    ∧ (RT.commitUserAudio (RT.run (RT.init ["Q1"] "re" "co" "jd") [RT.Event.userAudio "a"])
        { whisper := WhisperResult.ok (mkRat 7 10) "hi", eval := GptEval.fail, gen := GptText.err, done := false }).clientSent =
      (RT.run (RT.init ["Q1"] "re" "co" "jd") [RT.Event.userAudio "a"]).clientSent ++
        [ClientMsg.aiSilence] := by
  constructor
  · exact (C7_no_speech_discard _ _ (mkRat 7 10) "hi" (by decide) (by decide) rfl
      (Or.inl (by decide))).1
  · exact (C7_no_speech_discard _ _ (mkRat 7 10) "hi" (by decide) (by decide) rfl
      (Or.inl (by decide))).2.2.2.1

/-- C9. Capacity enforcement: when the registry already holds as many
sessions as the configured ceiling, a new connection attempt is
rejected with the explanatory capacity message and the distinct 1013
Server Full close code (different from the session-not-found and
internal-error codes), no Orchestrator is constructed for it, and the
registry of existing sessions is left untouched. -/
theorem C9_capacity_enforcement :
    ∀ registry : List String, registry.length = Relay.MAX_CONCURRENT_SESSIONS →
      Relay.acceptConnection registry =
        { outcome := Relay.ConnOutcome.rejectedCapacity Relay.capacityErrorMsg
            Relay.capacityCloseCode Relay.capacityCloseReason
          registry := registry
          orchestratorCreated := false }
      ∧ (Relay.acceptConnection registry).registry = registry
      ∧ (Relay.acceptConnection registry).orchestratorCreated = false
      ∧ Relay.capacityCloseCode ≠ Relay.notFoundCloseCode
      ∧ Relay.capacityCloseCode ≠ Relay.internalErrorCloseCode := by
  intro reg h
  have hge : Relay.MAX_CONCURRENT_SESSIONS ≤ reg.length := le_of_eq h.symm
  have hmain : Relay.acceptConnection reg =
      { outcome := Relay.ConnOutcome.rejectedCapacity Relay.capacityErrorMsg
          Relay.capacityCloseCode Relay.capacityCloseReason
        registry := reg
        orchestratorCreated := false } := by
    unfold Relay.acceptConnection
    rw [if_pos hge]
  exact ⟨hmain, by rw [hmain], by rw [hmain], by decide, by decide⟩

/-- Witness for C9 at a registry filled to the ceiling. -/
theorem C9_witness :
    Relay.acceptConnection (List.replicate 10 "sid") =
      { outcome := Relay.ConnOutcome.rejectedCapacity Relay.capacityErrorMsg
          Relay.capacityCloseCode Relay.capacityCloseReason
        registry := List.replicate 10 "sid"
        orchestratorCreated := false } :=
  (C9_capacity_enforcement (List.replicate 10 "sid") (by decide)).1

/-- C1. Phase monotonicity: every event handler moves the phase only
forward in the canonical order INTRO, SMALL_TALK, INTERVIEW, Q_AND_A,
CLOSING, and the terminating latch (the TERMINATED stage) is one-way;
hence over any run the sequence of phases visited is a subsequence of
that order, with no backward transitions. -/
theorem C1_phase_monotonicity :
    (∀ (s : RT.State) (e : RT.Event), phaseIdx s.phase ≤ phaseIdx (RT.step s e).phase)
    ∧ (∀ (s : RT.State) (e : RT.Event), s.isTerminating ≤ (RT.step s e).isTerminating)
    ∧ (∀ (s : RT.State) (evs : List RT.Event), phaseIdx s.phase ≤ phaseIdx (RT.run s evs).phase) :=
  ⟨rt_step_phase_mono, rt_step_latch_mono, rt_run_phase_mono⟩

end Spec2Proof
